import Mathlib

/-!
Verification of the KOmcp gateway: a shallow embedding of the
authenticated JSON-RPC dispatch core (OAuth token verification,
scope-gated MCP routing, tool executors and error mapping), translated
from the TypeScript sources, together with theorems settling the
specification claims.

JavaScript-level behaviour that the route code depends on (truthiness,
`typeof`, property access throwing on `null`/`undefined`) is modelled
explicitly on a small JSON value type.  Numbers are rationals: the
route logic only compares and echoes them.
-/

namespace KOmcp

/-- A JSON/JavaScript runtime value as seen by the route handlers.
`jUndefined` is JavaScript `undefined` (absent field), distinct from
JSON `null`. -/
inductive JValue where
  | jUndefined
  | jNull
  | jBool (b : Bool)
  | jNum (q : Rat)
  | jStr (s : String)
  | jArr (elems : List JValue)
  | jObj (fields : List (String × JValue))

/-- JavaScript truthiness of a value (`!x` in the sources tests falsiness). -/
def jsTruthy : JValue → Bool
  | .jUndefined => false
  | .jNull => false
  | .jBool b => b
  | .jNum q => q != 0
  | .jStr s => s != ""
  | .jArr _ => true
  | .jObj _ => true

/-- JavaScript `typeof` (note `typeof null = "object"`). -/
def jsTypeof : JValue → String
  | .jUndefined => "undefined"
  | .jNull => "object"
  | .jBool _ => "boolean"
  | .jNum _ => "number"
  | .jStr _ => "string"
  | .jArr _ => "object"
  | .jObj _ => "object"

/-- First-match field lookup in an object literal; absent fields read as
`undefined`, as in JavaScript. -/
def lookupField : List (String × JValue) → String → JValue
  | [], _ => .jUndefined
  | (k, v) :: rest, key => if k = key then v else lookupField rest key

/-- Property access.  `none` models the `TypeError` thrown when reading a
property of `null` or `undefined`; reading a property of any other
non-object value yields `undefined`. -/
def jsGet : JValue → String → Option JValue
  | .jUndefined, _ => none
  | .jNull, _ => none
  | .jObj fields, key => some (lookupField fields key)
  | _, _ => some .jUndefined

/-- Property access on a value known not to be `null`/`undefined`
(used inside handlers, which the route only reaches with an object body). -/
def jsGetD (v : JValue) (key : String) : JValue :=
  (jsGet v key).getD .jUndefined

/-- The string content of a value expected to be a string (used only
after the handlers' own `typeof x === "string"` checks have passed). -/
def jsAsString : JValue → String
  | .jStr s => s
  | _ => ""

/-- Character-list prefix test (structurally recursive so that concrete
instances evaluate). -/
def listIsPrefix : List Char → List Char → Bool
  | [], _ => true
  | _ :: _, [] => false
  | a :: as, b :: bs => a == b && listIsPrefix as bs

/-- Character-list infix test. -/
def listIsInfix (needle : List Char) : List Char → Bool
  | [] => listIsPrefix needle []
  | c :: rest => listIsPrefix needle (c :: rest) || listIsInfix needle rest

/-- JavaScript `String.prototype.includes`. -/
def strIncludes (s sub : String) : Bool :=
  listIsInfix sub.data s.data

/-- JavaScript `String.prototype.startsWith`. -/
def strStartsWith (s pre : String) : Bool :=
  listIsPrefix pre.data s.data

/-- JavaScript `String.prototype.substring(n)` (drop the first `n`
characters). -/
def strDrop (s : String) (n : Nat) : String :=
  String.mk (s.data.drop n)

/-- JavaScript `String.prototype.substring(0, n)`. -/
def strTake (s : String) (n : Nat) : String :=
  String.mk (s.data.take n)

/-- Split on a single space character, as `scope.split(' ')` does in the
middleware (`"".split(' ')` is `[""]`). -/
def splitSpaceAux : List Char → List Char → List String
  | [], acc => [String.mk acc.reverse]
  | c :: rest, acc =>
      if c = ' ' then String.mk acc.reverse :: splitSpaceAux rest []
      else splitSpaceAux rest (c :: acc)

/-- JavaScript `String.prototype.split(' ')`. -/
def strSplitSpace (s : String) : List String :=
  splitSpaceAux s.data []

/-- The strict comparison `x === "2.0"` from the envelope check. -/
def isJsonRpc2 : JValue → Bool
  | .jStr s => s == "2.0"
  | _ => false

/-! ## Token verification (`src/services/oauth.ts`) -/

/-- The tagged error codes of `TokenValidationError` in `oauth.ts`. -/
inductive AuthErrorCode where
  | invalid_token
  | token_expired
  | invalid_signature
  | invalid_issuer
  | invalid_audience
  | insufficient_scope
  deriving Repr, DecidableEq

/-- The literal string carried in the OAuth `error` field for each code. -/
def AuthErrorCode.asString : AuthErrorCode → String
  | .invalid_token => "invalid_token"
  | .token_expired => "token_expired"
  | .invalid_signature => "invalid_signature"
  | .invalid_issuer => "invalid_issuer"
  | .invalid_audience => "invalid_audience"
  | .insufficient_scope => "insufficient_scope"

/-- `TokenValidationError` from `oauth.ts`: a message plus a tagged code. -/
structure TokenValidationError where
  message : String
  code : AuthErrorCode
  deriving Repr, DecidableEq

/-- The outcome delivered by the external `jsonwebtoken` library's
`jwt.verify` callback, as consumed by `verifyToken`: either an error
object with a `name` and a `message`, or a decoded payload value.
The library itself is an external collaborator; `verifyToken` branches
only on the error's `name` and on substrings of its `message`. -/
inductive JwtVerifyOutcome where
  | err (name : String) (message : String)
  | ok (decoded : JValue)

/-- `verifyToken` from `oauth.ts`: maps the `jwt.verify` outcome to either
validated claims or a `TokenValidationError` with a distinct tagged code
per cause. -/
def verifyToken (outcome : JwtVerifyOutcome) : Except TokenValidationError JValue :=
  match outcome with
  | .err name message =>
      if name == "TokenExpiredError" then
        .error { message := "Token has expired", code := .token_expired }
      else if name == "JsonWebTokenError" && strIncludes message "invalid signature" then
        .error { message := "Invalid token signature", code := .invalid_signature }
      else if name == "JsonWebTokenError" && strIncludes message "invalid issuer" then
        .error { message := "Invalid token issuer", code := .invalid_issuer }
      else if name == "JsonWebTokenError" && strIncludes message "invalid audience" then
        .error { message := "Invalid token audience", code := .invalid_audience }
      else
        .error { message := message, code := .invalid_token }
  | .ok decoded =>
      if !jsTruthy decoded || jsTypeof decoded != "object" then
        .error { message := "Invalid token payload", code := .invalid_token }
      else if !jsTruthy (jsGetD decoded "sub") || !jsTruthy (jsGetD decoded "client_id")
          || !jsTruthy (jsGetD decoded "scope") then
        .error { message := "Token missing required claims (sub, client_id, scope)",
                 code := .invalid_token }
      else
        .ok decoded

/-! ## Authentication middleware (`src/middleware/auth.ts`) -/

/-- `UserContext` from `types/auth.ts`, attached to the request by the
middleware on success. -/
structure UserContext where
  userId : String
  clientId : String
  scopes : List String
  deriving Repr, DecidableEq

/-- The `{error, error_description}` JSON body of an auth failure. -/
structure OAuthErrorBody where
  error : String
  error_description : Option String
  deriving Repr, DecidableEq

/-- An HTTP response produced by the auth middleware (no JSON-RPC
envelope at this layer). -/
structure AuthHttpResponse where
  status : Nat
  wwwAuthenticate : Option String
  body : OAuthErrorBody
  deriving Repr, DecidableEq

/-- `buildWWWAuthenticateHeader` from `middleware/auth.ts`. -/
def buildWWWAuthenticateHeader (baseUrl : String) (error? : Option String)
    (errorDescription? : Option String) : String :=
  let parts := ["Bearer realm=\"KOmcp MCP Server\""]
  let parts := parts ++
    ["resource_metadata=\"" ++ baseUrl ++ "/.well-known/oauth-protected-resource\""]
  let parts := parts ++
    (match error? with
     | some e => ["error=\"" ++ e ++ "\""]
     | none => [])
  let parts := parts ++
    (match errorDescription? with
     | some d => ["error_description=\"" ++ d ++ "\""]
     | none => [])
  String.intercalate ", " parts

/-- Result of the middleware: short-circuit with an HTTP failure, or a
user context attached to the request. -/
inductive AuthOutcome where
  | denied (resp : AuthHttpResponse)
  | allowed (user : UserContext)

/-- `authMiddleware` from `middleware/auth.ts`.  `authHeader` is the raw
`Authorization` header (`none` when absent); `jwtOutcome` is the outcome
of the external `jwt.verify` call on the extracted token. -/
def authMiddleware (baseUrl : String) (authHeader : Option String)
    (jwtOutcome : JwtVerifyOutcome) : AuthOutcome :=
  let h := authHeader.getD ""
  if h == "" then
    .denied { status := 401,
              wwwAuthenticate := some (buildWWWAuthenticateHeader baseUrl none none),
              body := { error := "unauthorized",
                        error_description := some "Missing Authorization header" } }
  else if !(strStartsWith h "Bearer ") then
    .denied { status := 401,
              wwwAuthenticate := some (buildWWWAuthenticateHeader baseUrl
                (some "invalid_token") (some "Authorization header must use Bearer scheme")),
              body := { error := "invalid_token",
                        error_description := some "Authorization header must use Bearer scheme" } }
  else
    let token := strDrop h 7
    if token == "" then
      .denied { status := 401,
                wwwAuthenticate := some (buildWWWAuthenticateHeader baseUrl
                  (some "invalid_token") (some "Token is empty")),
                body := { error := "invalid_token",
                          error_description := some "Token is empty" } }
    else
      match verifyToken jwtOutcome with
      | .error e =>
          .denied { status := 401,
                    wwwAuthenticate := some (buildWWWAuthenticateHeader baseUrl
                      (some e.code.asString) (some e.message)),
                    body := { error := e.code.asString,
                              error_description := some e.message } }
      | .ok claims =>
          .allowed { userId := jsAsString (jsGetD claims "sub"),
                     clientId := jsAsString (jsGetD claims "client_id"),
                     scopes := strSplitSpace (jsAsString (jsGetD claims "scope")) }

/-! ## Tool registry (`src/mcp/schemas.ts`) -/

/-- A registered tool: name, description and JSON-schema, exactly the
public shape returned by `tools/list`. -/
structure ToolDefinition where
  name : String
  description : String
  inputSchema : JValue

/-- `SEARCH_NOTES_TOOL` from `schemas.ts`. -/
def SEARCH_NOTES_TOOL : ToolDefinition :=
  { name := "search_kura_notes",
    description :=
      "Search Kura notes using semantic similarity. Finds notes that are conceptually related to the search query, " ++
      "even if they don\x27t contain the exact keywords. Perfect for finding relevant information across your notes.",
    inputSchema := .jObj [
      ("type", .jStr "object"),
      ("properties", .jObj [
        ("query", .jObj [
          ("type", .jStr "string"),
          ("description", .jStr
            ("Natural language search query. Describe what you\x27re looking for in plain English. " ++
             "Examples: \"machine learning algorithms\", \"how to deploy Docker\", \"Python async programming\"")),
          ("minLength", .jNum 1),
          ("maxLength", .jNum 1000)]),
        ("limit", .jObj [
          ("type", .jStr "number"),
          ("description", .jStr
            "Maximum number of results to return. Default is 10. Increase for more comprehensive results."),
          ("minimum", .jNum 1),
          ("maximum", .jNum 50),
          ("default", .jNum 10)]),
        ("min_similarity", .jObj [
          ("type", .jStr "number"),
          ("description", .jStr
            ("Minimum similarity threshold (0-1). Higher values return only very similar notes. " ++
             "Lower values cast a wider net. Default is 0.7 (70% similar).")),
          ("minimum", .jNum 0),
          ("maximum", .jNum 1),
          ("default", .jNum 0.7)])]),
      ("required", .jArr [.jStr "query"])] }

/-- `CREATE_NOTE_TOOL` from `schemas.ts`. -/
def CREATE_NOTE_TOOL : ToolDefinition :=
  { name := "create_note",
    description :=
      "Create a new note in Kura. Capture text content with optional title, annotations, and tags. " ++
      "Perfect for saving important information, meeting notes, code snippets, or any text you want to remember.",
    inputSchema := .jObj [
      ("type", .jStr "object"),
      ("properties", .jObj [
        ("content", .jObj [
          ("type", .jStr "string"),
          ("description", .jStr
            "The main content of the note. Can be plain text, markdown, code, or any text content you want to save."),
          ("minLength", .jNum 1),
          ("maxLength", .jNum 100000)]),
        ("title", .jObj [
          ("type", .jStr "string"),
          ("description", .jStr
            "Optional title for the note. If not provided, Kura will generate one from the content."),
          ("maxLength", .jNum 500)]),
        ("annotation", .jObj [
          ("type", .jStr "string"),
          ("description", .jStr
            "Optional annotation or comment about the note. Use this to add context or metadata."),
          ("maxLength", .jNum 2000)]),
        ("tags", .jObj [
          ("type", .jStr "array"),
          ("items", .jObj [("type", .jStr "string")]),
          ("description", .jStr
            "Optional array of tags to organize the note. Examples: [\"work\", \"important\"], [\"python\", \"tutorial\"]")]),
        ("contentType", .jObj [
          ("type", .jStr "string"),
          ("description", .jStr
            "Optional content type hint. Defaults to \"text\". Can be used to indicate the type of content (e.g., \"code\", \"markdown\")."),
          ("default", .jStr "text")])]),
      ("required", .jArr [.jStr "content"])] }

/-- `GET_NOTE_TOOL` from `schemas.ts`. -/
def GET_NOTE_TOOL : ToolDefinition :=
  { name := "get_note",
    description :=
      "Retrieve the full content of a specific note by its ID. Returns the complete note including content, " ++
      "metadata, tags, and timestamps. Use this when you have a note ID from search results and want to read the full note.",
    inputSchema := .jObj [
      ("type", .jStr "object"),
      ("properties", .jObj [
        ("note_id", .jObj [
          ("type", .jStr "string"),
          ("description", .jStr
            "The unique ID of the note to retrieve. You can get note IDs from search results or list_recent_notes."),
          ("minLength", .jNum 1)])]),
      ("required", .jArr [.jStr "note_id"])] }

/-- `LIST_RECENT_NOTES_TOOL` from `schemas.ts`. -/
def LIST_RECENT_NOTES_TOOL : ToolDefinition :=
  { name := "list_recent_notes",
    description :=
      "List the 20 most recently created or updated notes. Returns a summary view without full content. " ++
      "Perfect for getting an overview of recent activity or finding recently added notes.",
    inputSchema := .jObj [
      ("type", .jStr "object"),
      ("properties", .jObj []),
      ("required", .jArr [])] }

/-- `DELETE_NOTE_TOOL` from `schemas.ts`. -/
def DELETE_NOTE_TOOL : ToolDefinition :=
  { name := "delete_note",
    description :=
      "Permanently delete a note by its ID. This action cannot be undone. " ++
      "Use with caution. You should confirm with the user before deleting notes.",
    inputSchema := .jObj [
      ("type", .jStr "object"),
      ("properties", .jObj [
        ("note_id", .jObj [
          ("type", .jStr "string"),
          ("description", .jStr
            "The unique ID of the note to delete. You can get note IDs from search results or list_recent_notes."),
          ("minLength", .jNum 1)])]),
      ("required", .jArr [.jStr "note_id"])] }

/-- `MCP_TOOLS`, the static tool registry from `schemas.ts`. -/
def MCP_TOOLS : List ToolDefinition :=
  [SEARCH_NOTES_TOOL, CREATE_NOTE_TOOL, GET_NOTE_TOOL, LIST_RECENT_NOTES_TOOL, DELETE_NOTE_TOOL]

/-! ## Tool results and the upstream Kura client (`src/types/mcp.ts`,
`src/services/kura-client.ts`) -/

/-- A content segment of a tool result.  The executors in this
repository only ever produce `type := "text"` segments with a `text`
payload (the optional `data`/`mimeType` fields of the source interface
are never set and are omitted here). -/
structure ToolContent where
  type : String
  text : String
  deriving Repr, DecidableEq

/-- `ToolResult` from `types/mcp.ts`. -/
structure ToolResult where
  content : List ToolContent
  isError : Bool
  deriving Repr, DecidableEq

/-- The outcome of one call to a `KuraClient` method, as observed by a
tool executor's `try`/`catch`: a typed response, a thrown
`KuraApiError` (message plus optional HTTP status), or any other
exception raised inside the executor's `try` block. -/
inductive KuraCallOutcome (α : Type) where
  | ok (response : α)
  | apiError (message : String) (statusCode : Option Nat)
  | otherError (message : String)

/-- Observable steps of a dispatch, used to state ordering properties
(scope check, tool lookup, upstream Kura request). -/
inductive TraceEvent where
  | scopeCheck (requiredScope : String)
  | toolLookup (name : String)
  | kuraSearch (query : String) (limit : Option Rat)
  | kuraCreate (content : String)
  | kuraGetNote (noteId : String)
  | kuraListRecent
  | kuraDelete (noteId : String)
  deriving Repr, DecidableEq

/-- Whether a trace event is an upstream I/O request to the Kura
service. -/
def TraceEvent.isUpstream : TraceEvent → Bool
  | .scopeCheck _ => false
  | .toolLookup _ => false
  | _ => true

/-! ## Search tool executor (`src/mcp/tools/search-notes.ts`) -/

/-- `SearchNotesInput` from `types/mcp.ts` (numbers as rationals). -/
structure SearchNotesInput where
  query : String
  limit : Option Rat
  min_similarity : Option Rat
  deriving Repr, DecidableEq

/-- The optional metadata block of a Kura search result / note.
The source field `annotation` is called `annotationText` here. -/
structure KuraNoteMetadata where
  tags : Option (List String)
  createdAt : Option String
  updatedAt : Option String
  source : Option String
  annotationText : Option String
  deriving Repr, DecidableEq

/-- One search result item of `KuraSearchResponse` (`kura-client.ts`). -/
structure KuraSearchResultItem where
  id : String
  title : String
  excerpt : String
  contentType : String
  relevanceScore : Rat
  metadata : KuraNoteMetadata
  deriving Repr, DecidableEq

/-- `KuraSearchResponse` from `kura-client.ts` (fields the formatter
reads). -/
structure KuraSearchResponse where
  results : List KuraSearchResultItem
  totalResults : Nat
  query : String
  searchMethod : String
  timestamp : String
  deriving Repr, DecidableEq

/-- JavaScript `Number.prototype.toFixed(1)` on a non-negative rational
(round half away from zero). -/
def toFixed1 (q : Rat) : String :=
  let n : Int := (q * 10 + 1/2).floor
  toString (n / 10) ++ "." ++ toString ((n % 10).natAbs)

/-- The per-item date prettification (`formatDate(new Date(...))`) reads
the current wall clock, which a pure embedding cannot observe; the
embedding keeps the raw timestamp string.  No claim depends on the
rendered date text. -/
def formatDate (iso : String) : String := iso

/-- `formatNoResults` from `search-notes.ts`. -/
def formatNoResults (query : String) : String :=
  "# 🔍 No Results Found\n\n" ++
  "No notes found matching **\"" ++ query ++ "\"**.\n\n" ++
  "**Suggestions:**\n" ++
  "- Try different keywords or phrases\n" ++
  "- Use more general terms\n" ++
  "- Check if notes exist in your Kura account\n" ++
  "- Make sure your notes have been indexed"

/-- One entry of `formatSearchResults` (the `results.forEach` body). -/
def formatSearchResultEntry (index : Nat) (result : KuraSearchResultItem) : String :=
  let relevancePercent := toFixed1 (result.relevanceScore * 100)
  let text := "## " ++ toString (index + 1) ++ ". " ++ result.title ++ "\n\n"
  let text := text ++ "**Relevance:** " ++ relevancePercent ++ "%"
  let text := text ++ (match result.metadata.updatedAt with
    | some u => " | **Updated:** " ++ formatDate u
    | none => "")
  let text := text ++ (match result.metadata.tags with
    | some tags =>
        if tags.length > 0 then
          "\n**Tags:** " ++ String.intercalate ", " (tags.map (fun tag => "#" ++ tag))
        else ""
    | none => "")
  let text := text ++ "\n\n" ++ result.excerpt ++ "\n\n"
  let text := text ++ (match result.metadata.source with
    | some s => "*Source: " ++ s ++ "*\n\n"
    | none => "")
  text ++ "*Note ID: " ++ result.id ++ "*\n\n" ++ "---\n\n"

/-- `formatSearchResults` from `search-notes.ts`. -/
def formatSearchResults (resp : KuraSearchResponse) : String :=
  let text := "# 🔍 Search Results\n\n" ++
    "Found **" ++ toString resp.totalResults ++ "** " ++
    (if resp.totalResults == 1 then "note" else "notes") ++
    " for \"" ++ resp.query ++ "\" (method: " ++ resp.searchMethod ++ ")\n\n" ++
    "---\n\n"
  (resp.results.enum.foldl (fun acc p => acc ++ formatSearchResultEntry p.1 p.2) text).trim

/-- The ternary hint appended to a `KuraApiError` message in
`executeSearchNotes` (401 checked before 404). -/
def searchUpstreamHint : Option Nat → String
  | some 401 => "Your access token may have expired. Please re-authenticate."
  | some 404 => "Make sure Kura is running and accessible."
  | _ => "Please try again or contact support if the problem persists."

/-- `executeSearchNotes` from `search-notes.ts`.  The executor forwards
only `query` and `limit` to `kuraClient.search` (recorded as the
`kuraSearch` trace event); `min_similarity` is never read. -/
def executeSearchNotes (outcome : KuraCallOutcome KuraSearchResponse)
    (input : SearchNotesInput) : ToolResult × List TraceEvent :=
  let events := [TraceEvent.kuraSearch input.query input.limit]
  match outcome with
  | .ok resp =>
      if resp.results.length == 0 then
        ({ content := [{ type := "text", text := formatNoResults input.query }],
           isError := false }, events)
      else
        ({ content := [{ type := "text", text := formatSearchResults resp }],
           isError := false }, events)
  | .apiError message statusCode =>
      let text := "❌ **Kura API Error**\n\n" ++ message ++ "\n\n" ++
        searchUpstreamHint statusCode
      ({ content := [{ type := "text", text := text }], isError := true }, events)
  | .otherError message =>
      let text := "❌ **Unexpected Error**\n\nAn unexpected error occurred during search: " ++
        message
      ({ content := [{ type := "text", text := text }], isError := true }, events)

/-! ## The other four tool executors (`create-note.ts`, `get-note.ts`,
`list-recent-notes.ts`, `delete-note.ts`) -/

/-- JavaScript string coercion, used by `formatCreateSuccess` when it
interpolates the unvalidated optional `create_note` fields into a
template literal. -/
def jsToString : JValue → String
  | .jUndefined => "undefined"
  | .jNull => "null"
  | .jBool b => if b then "true" else "false"
  | .jNum q => toString q
  | .jStr s => s
  | .jArr [] => ""
  | .jArr (a :: as) =>
      jsToString a ++ (if as.isEmpty then "" else ",") ++ jsToString (.jArr as)
  | .jObj _ => "[object Object]"

/-- `CreateNoteInput` as built by `handleCreateNote`: `content` is
validated to be a string, the optional fields are copied from the tool
arguments without validation. -/
structure CreateNoteInput where
  content : String
  title : JValue
  annotationArg : JValue
  tags : JValue
  contentType : JValue

/-- `KuraCreateNoteResponse` from `kura-client.ts`. -/
structure KuraCreateNoteResponse where
  id : String
  message : String
  deriving Repr, DecidableEq

/-- The JavaScript value of `x.length` for the unvalidated `tags`
value: strings and arrays have a numeric length, a plain object may
carry its own `length` field, anything else reads `undefined`. -/
def jsLengthVal : JValue → JValue
  | .jStr s => .jNum (s.length : Rat)
  | .jArr l => .jNum (l.length : Rat)
  | .jObj fields => lookupField fields "length"
  | _ => .jUndefined

/-- The JavaScript test `x && x.length > 0` (`undefined > 0` is false,
as is any non-numeric length). -/
def jsHasPositiveLength (v : JValue) : Bool :=
  jsTruthy v &&
    (match jsLengthVal v with
     | .jNum q => if q > 0 then true else false
     | _ => false)

/-- `formatCreateSuccess` from `create-note.ts`.  The `tags` value is
copied from the tool arguments unvalidated, so `input.tags.map(...)` is
reachable with a non-array: a truthy non-array with a positive `length`
(e.g. a string) throws a `TypeError` at the `.map` call, which the
executor's `catch` turns into an "Unexpected Error" result.
`Except.error` models that throw. -/
def formatCreateSuccess (response : KuraCreateNoteResponse)
    (input : CreateNoteInput) : Except String String :=
  let text := "# ✅ Note Created Successfully\n\n"
  let text := text ++ "**Note ID:** " ++ response.id ++ "\n\n"
  let text := text ++
    (if jsTruthy input.title then "**Title:** " ++ jsToString input.title ++ "\n\n" else "")
  let tagsLine : Except String String :=
    if jsHasPositiveLength input.tags then
      match input.tags with
      | .jArr tags =>
          .ok ("**Tags:** " ++ String.intercalate ", "
            (tags.map (fun tag => "#" ++ jsToString tag)) ++ "\n\n")
      | _ => .error "input.tags.map is not a function"
    else .ok ""
  match tagsLine with
  | .error m => .error m
  | .ok tagsText =>
      let text := text ++ tagsText
      let text := text ++
        (if jsTruthy input.annotationArg then
           "**Annotation:** " ++ jsToString input.annotationArg ++ "\n\n"
         else "")
      let contentPreview :=
        if input.content.length > 200 then strTake input.content 200 ++ "..."
        else input.content
      let text := text ++ "**Content Preview:**\n\n" ++ contentPreview ++ "\n\n"
      let text := text ++ "---\n\n"
      .ok (text ++ "The note has been saved to your Kura account and is now searchable.")

/-- The ternary hint in `executeCreateNote` (401 checked before 404). -/
def createUpstreamHint : Option Nat → String
  | some 401 => "Your access token may have expired. Please re-authenticate."
  | some 404 => "Make sure Kura is running and accessible."
  | _ => "Please try again or contact support if the problem persists."

/-- `executeCreateNote` from `create-note.ts`. -/
def executeCreateNote (outcome : KuraCallOutcome KuraCreateNoteResponse)
    (input : CreateNoteInput) : ToolResult × List TraceEvent :=
  let events := [TraceEvent.kuraCreate input.content]
  match outcome with
  | .ok resp =>
      match formatCreateSuccess resp input with
      | .ok text =>
          ({ content := [{ type := "text", text := text }], isError := false }, events)
      | .error m =>
          let text :=
            "❌ **Unexpected Error**\n\nAn unexpected error occurred while creating the note: " ++ m
          ({ content := [{ type := "text", text := text }], isError := true }, events)
  | .apiError message statusCode =>
      let text := "❌ **Failed to Create Note**\n\n" ++ message ++ "\n\n" ++
        createUpstreamHint statusCode
      ({ content := [{ type := "text", text := text }], isError := true }, events)
  | .otherError message =>
      let text := "❌ **Unexpected Error**\n\nAn unexpected error occurred while creating the note: " ++
        message
      ({ content := [{ type := "text", text := text }], isError := true }, events)

/-- `GetNoteInput` from `get-note.ts`. -/
structure GetNoteInput where
  note_id : String
  deriving Repr, DecidableEq

/-- `KuraNoteContent` from `kura-client.ts`. -/
structure KuraNoteContent where
  id : String
  content : String
  contentType : String
  title : String
  metadata : KuraNoteMetadata
  deriving Repr, DecidableEq

/-- `formatNoteContent` from `get-note.ts`. -/
def formatNoteContent (note : KuraNoteContent) : String :=
  let text := "# 📄 " ++ note.title ++ "\n\n"
  let text := text ++ "**Note ID:** " ++ note.id ++ "\n"
  let text := text ++ "**Content Type:** " ++ note.contentType ++ "\n"
  let text := text ++ (match note.metadata.createdAt with
    | some c => "**Created:** " ++ formatDate c ++ "\n"
    | none => "")
  let text := text ++ (match note.metadata.updatedAt with
    | some u => "**Last Updated:** " ++ formatDate u ++ "\n"
    | none => "")
  let text := text ++ (match note.metadata.tags with
    | some tags =>
        if tags.length > 0 then
          "**Tags:** " ++ String.intercalate ", " (tags.map (fun tag => "#" ++ tag)) ++ "\n"
        else ""
    | none => "")
  let text := text ++ (match note.metadata.source with
    | some s => "**Source:** " ++ s ++ "\n"
    | none => "")
  let text := text ++ (match note.metadata.annotationText with
    | some a => "\n**Annotation:** " ++ a ++ "\n"
    | none => "")
  let text := text ++ "\n---\n\n"
  text ++ note.content ++ "\n"

/-- The ternary hint in `executeGetNote` (404 checked before 401). -/
def getUpstreamHint : Option Nat → String
  | some 404 => "The note may have been deleted or the ID is incorrect."
  | some 401 => "Your access token may have expired. Please re-authenticate."
  | _ => "Please try again or contact support if the problem persists."

/-- `executeGetNote` from `get-note.ts`. -/
def executeGetNote (outcome : KuraCallOutcome KuraNoteContent)
    (input : GetNoteInput) : ToolResult × List TraceEvent :=
  let events := [TraceEvent.kuraGetNote input.note_id]
  match outcome with
  | .ok note =>
      ({ content := [{ type := "text", text := formatNoteContent note }],
         isError := false }, events)
  | .apiError message statusCode =>
      let text := "❌ **Failed to Retrieve Note**\n\n" ++ message ++ "\n\n" ++
        getUpstreamHint statusCode
      ({ content := [{ type := "text", text := text }], isError := true }, events)
  | .otherError message =>
      let text := "❌ **Unexpected Error**\n\nAn unexpected error occurred while retrieving the note: " ++
        message
      ({ content := [{ type := "text", text := text }], isError := true }, events)

/-- One entry of `KuraRecentNotesResponse.notes` (`kura-client.ts`). -/
structure RecentNoteItem where
  id : String
  title : String
  contentType : String
  createdAt : String
  updatedAt : String
  tags : Option (List String)
  deriving Repr, DecidableEq

/-- `KuraRecentNotesResponse` from `kura-client.ts`. -/
structure KuraRecentNotesResponse where
  notes : List RecentNoteItem
  total : Nat
  deriving Repr, DecidableEq

/-- `formatNoNotes` from `list-recent-notes.ts`. -/
def formatNoNotes : String :=
  "# 📋 No Recent Notes\n\n" ++
  "You don\x27t have any notes in your Kura account yet.\n\n" ++
  "**Get started:**\n" ++
  "- Use the create_note tool to add your first note\n" ++
  "- Capture important information, ideas, or code snippets\n" ++
  "- Your notes will appear here once you create them"

/-- One entry of `formatRecentNotes` (the `notes.forEach` body). -/
def formatRecentNoteEntry (index : Nat) (note : RecentNoteItem) : String :=
  let text := "## " ++ toString (index + 1) ++ ". " ++ note.title ++ "\n\n"
  let text := text ++ "**Note ID:** " ++ note.id ++ "\n"
  let text := text ++ "**Type:** " ++ note.contentType ++ "\n"
  let text := text ++ "**Updated:** " ++ formatDate note.updatedAt ++ "\n"
  let text := text ++ (match note.tags with
    | some tags =>
        if tags.length > 0 then
          "**Tags:** " ++ String.intercalate ", " (tags.map (fun tag => "#" ++ tag)) ++ "\n"
        else ""
    | none => "")
  text ++ "\n---\n\n"

/-- `formatRecentNotes` from `list-recent-notes.ts`. -/
def formatRecentNotes (resp : KuraRecentNotesResponse) : String :=
  let text := "# 📋 Recent Notes\n\n"
  let text := text ++ "Showing " ++ toString resp.notes.length ++ " most recent " ++
    (if resp.notes.length == 1 then "note" else "notes") ++ "\n\n"
  let text := text ++ "---\n\n"
  let text := resp.notes.enum.foldl (fun acc p => acc ++ formatRecentNoteEntry p.1 p.2) text
  text ++ "💡 *Use the get_note tool with a note ID to view full content.*"

/-- The ternary hint in `executeListRecentNotes` (401 checked before
404). -/
def listUpstreamHint : Option Nat → String
  | some 401 => "Your access token may have expired. Please re-authenticate."
  | some 404 => "Make sure Kura is running and accessible."
  | _ => "Please try again or contact support if the problem persists."

/-- `executeListRecentNotes` from `list-recent-notes.ts`. -/
def executeListRecentNotes (outcome : KuraCallOutcome KuraRecentNotesResponse) :
    ToolResult × List TraceEvent :=
  let events := [TraceEvent.kuraListRecent]
  match outcome with
  | .ok resp =>
      if resp.notes.length == 0 then
        ({ content := [{ type := "text", text := formatNoNotes }], isError := false }, events)
      else
        ({ content := [{ type := "text", text := formatRecentNotes resp }],
           isError := false }, events)
  | .apiError message statusCode =>
      let text := "❌ **Failed to List Recent Notes**\n\n" ++ message ++ "\n\n" ++
        listUpstreamHint statusCode
      ({ content := [{ type := "text", text := text }], isError := true }, events)
  | .otherError message =>
      let text := "❌ **Unexpected Error**\n\nAn unexpected error occurred while listing recent notes: " ++
        message
      ({ content := [{ type := "text", text := text }], isError := true }, events)

/-- `DeleteNoteInput` from `delete-note.ts`. -/
structure DeleteNoteInput where
  note_id : String
  deriving Repr, DecidableEq

/-- `formatDeleteSuccess` from `delete-note.ts`. -/
def formatDeleteSuccess (noteId : String) : String :=
  "# 🗑️ Note Deleted Successfully\n\n" ++
  "**Note ID:** " ++ noteId ++ "\n\n" ++
  "---\n\n" ++
  "The note has been permanently deleted from your Kura account.\n\n" ++
  "⚠️ **Note:** This action cannot be undone. The note and all its content have been removed."

/-- The ternary hint in `executeDeleteNote` (404 checked before 401). -/
def deleteUpstreamHint : Option Nat → String
  | some 404 => "The note may have already been deleted or the ID is incorrect."
  | some 401 => "Your access token may have expired. Please re-authenticate."
  | _ => "Please try again or contact support if the problem persists."

/-- `executeDeleteNote` from `delete-note.ts`. -/
def executeDeleteNote (outcome : KuraCallOutcome Unit)
    (input : DeleteNoteInput) : ToolResult × List TraceEvent :=
  let events := [TraceEvent.kuraDelete input.note_id]
  match outcome with
  | .ok _ =>
      ({ content := [{ type := "text", text := formatDeleteSuccess input.note_id }],
         isError := false }, events)
  | .apiError message statusCode =>
      let text := "❌ **Failed to Delete Note**\n\n" ++ message ++ "\n\n" ++
        deleteUpstreamHint statusCode
      ({ content := [{ type := "text", text := text }], isError := true }, events)
  | .otherError message =>
      let text := "❌ **Unexpected Error**\n\nAn unexpected error occurred while deleting the note: " ++
        message
      ({ content := [{ type := "text", text := text }], isError := true }, events)

/-! ## JSON-RPC response shaping (`src/routes/mcp.ts`) -/

/-- A JSON-RPC 2.0 error object (`JsonRpcError` in `mcp.ts`). -/
structure JsonRpcErrorObj where
  code : Int
  message : String
  data : Option JValue

/-- The `result` payloads this route produces: the static tool list for
`tools/list`, or a `ToolResult` for `tools/call`. -/
inductive RpcResultPayload where
  | toolsList (tools : List ToolDefinition)
  | toolResult (result : ToolResult)

/-- A JSON-RPC 2.0 response object (`JsonRpcResponse` in `mcp.ts`).
`result` and `error` are both optional fields, as in the source. -/
structure JsonRpcResponse where
  jsonrpc : String
  id : JValue
  result : Option RpcResultPayload
  error : Option JsonRpcErrorObj

/-- An HTTP response of the `POST /mcp` route: status plus the JSON-RPC
body (every branch of the route sends a JSON-RPC object). -/
structure HttpResponse where
  status : Nat
  body : JsonRpcResponse

/-- The `id ?? null` normalization applied by both response builders. -/
def normalizeId : JValue → JValue
  | .jUndefined => .jNull
  | .jNull => .jNull
  | v => v

/-- `createSuccessResponse` from `mcp.ts`. -/
def createSuccessResponse (id : JValue) (result : RpcResultPayload) : JsonRpcResponse :=
  { jsonrpc := "2.0", id := normalizeId id, result := some result, error := none }

/-- `createErrorResponse` from `mcp.ts` (the `...(data && { data })`
spread includes `data` only when it is truthy). -/
def createErrorResponse (id : JValue) (code : Int) (message : String)
    (data : Option JValue) : JsonRpcResponse :=
  { jsonrpc := "2.0", id := normalizeId id,
    result := none,
    error := some { code := code, message := message,
                    data := match data with
                      | some d => if jsTruthy d then some d else none
                      | none => none } }

/-- JSON-RPC 2.0 error codes (`JsonRpcErrorCode` in `mcp.ts`). -/
def INVALID_REQUEST : Int := -32600
def METHOD_NOT_FOUND : Int := -32601
def INVALID_PARAMS : Int := -32602
def INTERNAL_ERROR : Int := -32603

/-! ## Route handlers (`src/routes/mcp.ts`) -/

/-- How one tool execution behaves, from the point of view of the
handler's `try`/`catch`: either the executor runs to completion on a
given upstream outcome (executors catch all errors internally and
return a `ToolResult`), or an exception escapes the execution step into
the handler's `catch` block. -/
inductive ExecBehavior (α : Type) where
  | runs (outcome : KuraCallOutcome α)
  | raises (message : String)

/-- The per-request behaviour of all five tool execution steps (only
the one the request dispatches to is consulted). -/
structure ExecOracles where
  search : ExecBehavior KuraSearchResponse
  create : ExecBehavior KuraCreateNoteResponse
  get : ExecBehavior KuraNoteContent
  listRecent : ExecBehavior KuraRecentNotesResponse
  delete : ExecBehavior Unit

/-- The required-scope strings (`RequiredScope` in `types/auth.ts`). -/
def TOOLS_READ : String := "mcp:tools:read"
def TOOLS_EXECUTE : String := "mcp:tools:execute"

/-- `handleToolsList` from `mcp.ts`: scope check, then the full static
tool list. -/
def handleToolsList (user : Option UserContext) (rpcId : JValue) :
    HttpResponse × List TraceEvent :=
  let events := [TraceEvent.scopeCheck TOOLS_READ]
  let denied : HttpResponse × List TraceEvent :=
    ({ status := 403,
       body := createErrorResponse rpcId INTERNAL_ERROR
         "Insufficient scope. Required: mcp:tools:read"
         (some (.jObj [("required_scope", .jStr TOOLS_READ)])) }, events)
  match user with
  | none => denied
  | some u =>
      if !(u.scopes.contains TOOLS_READ) then denied
      else
        ({ status := 200,
           body := createSuccessResponse rpcId (.toolsList MCP_TOOLS) }, events)

/-- The `Bearer ` header extraction shared by all five tool handlers:
`none` models the 500 "Access token not found" short-circuit. -/
def extractAccessToken (authHeader : Option String) : Option String :=
  let h := authHeader.getD ""
  if h == "" || !(strStartsWith h "Bearer ") then none
  else some (strDrop h 7)

/-- The 500 response a tool handler sends when the `Authorization`
header is missing or not a Bearer header (unreachable behind the auth
middleware, but present in the source). -/
def accessTokenNotFound (rpcId : JValue) : HttpResponse :=
  { status := 500,
    body := createErrorResponse rpcId INTERNAL_ERROR
      "Internal server error: Access token not found" none }

/-- The 500 response of a tool handler's `catch` block: a generic
message, with the caught exception's message attached as `data.error`. -/
def toolExecutionFailed (rpcId : JValue) (errMessage : String) : HttpResponse :=
  { status := 500,
    body := createErrorResponse rpcId INTERNAL_ERROR "Tool execution failed"
      (some (.jObj [("error", .jStr errMessage)])) }

/-- The acceptance test for the optional `limit` argument
(`typeof limit !== "number" || limit < 1 || limit > 50` rejects). -/
def validLimitArg : JValue → Bool
  | .jUndefined => true
  | .jNum q => !(q < 1 || q > 50)
  | _ => false

/-- The acceptance test for the optional `min_similarity` argument
(`typeof v !== "number" || v < 0 || v > 1` rejects). -/
def validMinSimilarityArg : JValue → Bool
  | .jUndefined => true
  | .jNum q => !(q < 0 || q > 1)
  | _ => false

/-- The numeric value of a validated optional argument. -/
def optRatOf : JValue → Option Rat
  | .jNum q => some q
  | _ => none

/-- `handleSearchKuraNotes` from `mcp.ts`: argument validation, token
extraction, then the search executor; its `catch` produces the 500
`toolExecutionFailed` response. -/
def handleSearchKuraNotes (authHeader : Option String) (rpcId : JValue)
    (toolArgs : JValue) (exec : ExecBehavior KuraSearchResponse) :
    HttpResponse × List TraceEvent :=
  if !(jsTruthy toolArgs) || jsTypeof toolArgs != "object" then
    ({ status := 400,
       body := createErrorResponse rpcId INVALID_PARAMS
         "Invalid tool arguments. Expected object." none }, [])
  else if !(jsTruthy (jsGetD toolArgs "query")) ||
      jsTypeof (jsGetD toolArgs "query") != "string" then
    ({ status := 400,
       body := createErrorResponse rpcId INVALID_PARAMS
         "Missing or invalid \"query\" parameter" none }, [])
  else if !(validLimitArg (jsGetD toolArgs "limit")) then
    ({ status := 400,
       body := createErrorResponse rpcId INVALID_PARAMS
         "Invalid \"limit\" parameter. Must be a number between 1 and 50." none }, [])
  else if !(validMinSimilarityArg (jsGetD toolArgs "min_similarity")) then
    ({ status := 400,
       body := createErrorResponse rpcId INVALID_PARAMS
         "Invalid \"min_similarity\" parameter. Must be a number between 0 and 1." none }, [])
  else
    let searchInput : SearchNotesInput :=
      { query := jsAsString (jsGetD toolArgs "query"),
        limit := optRatOf (jsGetD toolArgs "limit"),
        min_similarity := optRatOf (jsGetD toolArgs "min_similarity") }
    match extractAccessToken authHeader with
    | none => (accessTokenNotFound rpcId, [])
    | some _ =>
        match exec with
        | .raises message => (toolExecutionFailed rpcId message, [])
        | .runs outcome =>
            let (result, events) := executeSearchNotes outcome searchInput
            ({ status := 200, body := createSuccessResponse rpcId (.toolResult result) },
             events)

/-- `handleCreateNote` from `mcp.ts`. -/
def handleCreateNote (authHeader : Option String) (rpcId : JValue)
    (toolArgs : JValue) (exec : ExecBehavior KuraCreateNoteResponse) :
    HttpResponse × List TraceEvent :=
  if !(jsTruthy toolArgs) || jsTypeof toolArgs != "object" then
    ({ status := 400,
       body := createErrorResponse rpcId INVALID_PARAMS
         "Invalid tool arguments. Expected object." none }, [])
  else if !(jsTruthy (jsGetD toolArgs "content")) ||
      jsTypeof (jsGetD toolArgs "content") != "string" then
    ({ status := 400,
       body := createErrorResponse rpcId INVALID_PARAMS
         "Missing or invalid \"content\" parameter" none }, [])
  else
    let createInput : CreateNoteInput :=
      { content := jsAsString (jsGetD toolArgs "content"),
        title := jsGetD toolArgs "title",
        annotationArg := jsGetD toolArgs "annotation",
        tags := jsGetD toolArgs "tags",
        contentType := jsGetD toolArgs "contentType" }
    match extractAccessToken authHeader with
    | none => (accessTokenNotFound rpcId, [])
    | some _ =>
        match exec with
        | .raises message => (toolExecutionFailed rpcId message, [])
        | .runs outcome =>
            let (result, events) := executeCreateNote outcome createInput
            ({ status := 200, body := createSuccessResponse rpcId (.toolResult result) },
             events)

/-- `handleGetNote` from `mcp.ts`. -/
def handleGetNote (authHeader : Option String) (rpcId : JValue)
    (toolArgs : JValue) (exec : ExecBehavior KuraNoteContent) :
    HttpResponse × List TraceEvent :=
  if !(jsTruthy toolArgs) || jsTypeof toolArgs != "object" then
    ({ status := 400,
       body := createErrorResponse rpcId INVALID_PARAMS
         "Invalid tool arguments. Expected object." none }, [])
  else if !(jsTruthy (jsGetD toolArgs "note_id")) ||
      jsTypeof (jsGetD toolArgs "note_id") != "string" then
    ({ status := 400,
       body := createErrorResponse rpcId INVALID_PARAMS
         "Missing or invalid \"note_id\" parameter" none }, [])
  else
    let getInput : GetNoteInput := { note_id := jsAsString (jsGetD toolArgs "note_id") }
    match extractAccessToken authHeader with
    | none => (accessTokenNotFound rpcId, [])
    | some _ =>
        match exec with
        | .raises message => (toolExecutionFailed rpcId message, [])
        | .runs outcome =>
            let (result, events) := executeGetNote outcome getInput
            ({ status := 200, body := createSuccessResponse rpcId (.toolResult result) },
             events)

/-- `handleListRecentNotes` from `mcp.ts` (no argument validation). -/
def handleListRecentNotes (authHeader : Option String) (rpcId : JValue)
    (exec : ExecBehavior KuraRecentNotesResponse) :
    HttpResponse × List TraceEvent :=
  match extractAccessToken authHeader with
  | none => (accessTokenNotFound rpcId, [])
  | some _ =>
      match exec with
      | .raises message => (toolExecutionFailed rpcId message, [])
      | .runs outcome =>
          let (result, events) := executeListRecentNotes outcome
          ({ status := 200, body := createSuccessResponse rpcId (.toolResult result) },
           events)

/-- `handleDeleteNote` from `mcp.ts`. -/
def handleDeleteNote (authHeader : Option String) (rpcId : JValue)
    (toolArgs : JValue) (exec : ExecBehavior Unit) :
    HttpResponse × List TraceEvent :=
  if !(jsTruthy toolArgs) || jsTypeof toolArgs != "object" then
    ({ status := 400,
       body := createErrorResponse rpcId INVALID_PARAMS
         "Invalid tool arguments. Expected object." none }, [])
  else if !(jsTruthy (jsGetD toolArgs "note_id")) ||
      jsTypeof (jsGetD toolArgs "note_id") != "string" then
    ({ status := 400,
       body := createErrorResponse rpcId INVALID_PARAMS
         "Missing or invalid \"note_id\" parameter" none }, [])
  else
    let deleteInput : DeleteNoteInput := { note_id := jsAsString (jsGetD toolArgs "note_id") }
    match extractAccessToken authHeader with
    | none => (accessTokenNotFound rpcId, [])
    | some _ =>
        match exec with
        | .raises message => (toolExecutionFailed rpcId message, [])
        | .runs outcome =>
            let (result, events) := executeDeleteNote outcome deleteInput
            ({ status := 200, body := createSuccessResponse rpcId (.toolResult result) },
             events)

/-- The hardcoded `available_tools` list of the unknown-tool branch in
`handleToolsCall`. -/
def availableToolsData : JValue :=
  .jObj [("available_tools", .jArr [
    .jStr "search_kura_notes",
    .jStr "create_note",
    .jStr "get_note",
    .jStr "list_recent_notes",
    .jStr "delete_note"])]

/-- `handleToolsCall` from `mcp.ts`: scope check, params-shape check,
tool-name check, then dispatch by name. -/
def handleToolsCall (user : Option UserContext) (authHeader : Option String)
    (rpcId : JValue) (params : JValue) (oracles : ExecOracles) :
    HttpResponse × List TraceEvent :=
  let scopeEvents := [TraceEvent.scopeCheck TOOLS_EXECUTE]
  let denied : HttpResponse × List TraceEvent :=
    ({ status := 403,
       body := createErrorResponse rpcId INTERNAL_ERROR
         "Insufficient scope. Required: mcp:tools:execute"
         (some (.jObj [("required_scope", .jStr TOOLS_EXECUTE)])) }, scopeEvents)
  let dispatch : HttpResponse × List TraceEvent :=
    if !(jsTruthy params) || jsTypeof params != "object" then
      ({ status := 400,
         body := createErrorResponse rpcId INVALID_PARAMS
           "Missing or invalid params field" none }, scopeEvents)
    else
      let name := jsGetD params "name"
      let toolArgs := jsGetD params "arguments"
      if !(jsTruthy name) || jsTypeof name != "string" then
        ({ status := 400,
           body := createErrorResponse rpcId INVALID_PARAMS
             "Missing or invalid tool name" none }, scopeEvents)
      else
        let n := jsAsString name
        let events := scopeEvents ++ [TraceEvent.toolLookup n]
        let (resp, handlerEvents) :=
          if n == "search_kura_notes" then
            handleSearchKuraNotes authHeader rpcId toolArgs oracles.search
          else if n == "create_note" then
            handleCreateNote authHeader rpcId toolArgs oracles.create
          else if n == "get_note" then
            handleGetNote authHeader rpcId toolArgs oracles.get
          else if n == "list_recent_notes" then
            handleListRecentNotes authHeader rpcId oracles.listRecent
          else if n == "delete_note" then
            handleDeleteNote authHeader rpcId toolArgs oracles.delete
          else
            ({ status := 404,
               body := createErrorResponse rpcId METHOD_NOT_FOUND
                 ("Unknown tool: " ++ n) (some availableToolsData) }, [])
        (resp, events ++ handlerEvents)
  match user with
  | none => denied
  | some u => if !(u.scopes.contains TOOLS_EXECUTE) then denied else dispatch

/-- The `POST /mcp` handler body from `registerMcpRoutes`: envelope
validation, then routing; the surrounding `try`/`catch` maps a thrown
`TypeError` (reading a property of a `null`/`undefined` body) to a 500
"Internal server error" response with a `null` id and no diagnostic
data. -/
def mcpPostHandler (user : Option UserContext) (authHeader : Option String)
    (body : JValue) (oracles : ExecOracles) : HttpResponse × List TraceEvent :=
  match jsGet body "jsonrpc" with
  | none =>
      ({ status := 500,
         body := createErrorResponse .jNull INTERNAL_ERROR "Internal server error" none }, [])
  | some v =>
      let rpcId := jsGetD body "id"
      if !(isJsonRpc2 v) then
        ({ status := 400,
           body := createErrorResponse rpcId INVALID_REQUEST
             "Invalid JSON-RPC version. Must be \"2.0\"" none }, [])
      else
        let method := jsGetD body "method"
        if !(jsTruthy method) || jsTypeof method != "string" then
          ({ status := 400,
             body := createErrorResponse rpcId INVALID_REQUEST
               "Missing or invalid method field" none }, [])
        else
          let m := jsAsString method
          if m == "tools/list" then handleToolsList user rpcId
          else if m == "tools/call" then
            handleToolsCall user authHeader rpcId (jsGetD body "params") oracles
          else
            ({ status := 404,
               body := createErrorResponse rpcId METHOD_NOT_FOUND
                 ("Method not found: " ++ m) none }, [])

/-- A full `POST /mcp` round trip: the auth middleware either
short-circuits at the HTTP layer, or attaches the user context and the
route handler runs. -/
inductive EndpointResponse where
  | authFailure (resp : AuthHttpResponse)
  | rpc (resp : HttpResponse) (trace : List TraceEvent)

/-- Fastify `preHandler` wiring of `registerMcpRoutes`: `authMiddleware`
runs before the route body for every `POST /mcp` request. -/
def mcpEndpoint (baseUrl : String) (authHeader : Option String)
    (jwtOutcome : JwtVerifyOutcome) (body : JValue) (oracles : ExecOracles) :
    EndpointResponse :=
  match authMiddleware baseUrl authHeader jwtOutcome with
  | .denied resp => .authFailure resp
  | .allowed user =>
      let (resp, trace) := mcpPostHandler (some user) authHeader body oracles
      .rpc resp trace

/-! ## Shared definitions for the claim statements -/

/-- A `tools/list` request body carrying a given id. -/
def toolsListBody (rid : JValue) : JValue :=
  .jObj [("jsonrpc", .jStr "2.0"), ("id", rid), ("method", .jStr "tools/list")]

/-- A `tools/call` request body carrying a given id and params. -/
def toolsCallBody (rid params : JValue) : JValue :=
  .jObj [("jsonrpc", .jStr "2.0"), ("id", rid), ("method", .jStr "tools/call"),
         ("params", params)]

/-- The request's id as the route observes it: `undefined` (absent) and
`null` both normalize to `null`; a body whose fields cannot be read has
no id. -/
def requestIdOf (body : JValue) : JValue :=
  match jsGet body "id" with
  | none => .jNull
  | some v => normalizeId v

/-- The HTTP status of a round-trip outcome. -/
def EndpointResponse.httpStatus : EndpointResponse → Nat
  | .rpc r _ => r.status
  | .authFailure r => r.status

/-- The JSON-RPC body of a round-trip outcome, when the request got past
the auth middleware. -/
def EndpointResponse.rpcBody : EndpointResponse → Option JsonRpcResponse
  | .rpc r _ => some r.body
  | .authFailure _ => none

/-- The `jsonrpc` field of the JSON-RPC body, when present. -/
def EndpointResponse.rpcJsonrpc : EndpointResponse → Option String
  | .rpc r _ => some r.body.jsonrpc
  | .authFailure _ => none

/-- The JSON-RPC error code of the response, when an error is present. -/
def EndpointResponse.rpcErrCode : EndpointResponse → Option Int
  | .rpc r _ => r.body.error.map (fun e => e.code)
  | .authFailure _ => none

/-- The JSON-RPC error message of the response, when present. -/
def EndpointResponse.rpcErrMessage : EndpointResponse → Option String
  | .rpc r _ => r.body.error.map (fun e => e.message)
  | .authFailure _ => none

/-- A string field of the JSON-RPC error's `data`, when present. -/
def EndpointResponse.rpcErrDataStr (key : String) : EndpointResponse → Option String
  | .rpc r _ => r.body.error.bind (fun e => e.data.map (fun d => jsAsString (jsGetD d key)))
  | .authFailure _ => none

/-- Whether the JSON-RPC body carries a `result`. -/
def EndpointResponse.rpcHasResult : EndpointResponse → Bool
  | .rpc r _ => r.body.result.isSome
  | .authFailure _ => false

/-- The JSON-RPC error code of a route response, when present. -/
def HttpResponse.errCode (r : HttpResponse) : Option Int :=
  r.body.error.map (fun e => e.code)

/-- The JSON-RPC error message of a route response, when present. -/
def HttpResponse.errMessage (r : HttpResponse) : Option String :=
  r.body.error.map (fun e => e.message)

/-- A string field of a route response's error `data`, when present. -/
def HttpResponse.errDataStr (r : HttpResponse) (key : String) : Option String :=
  r.body.error.bind (fun e => e.data.map (fun d => jsAsString (jsGetD d key)))

/-- The error component of a token verification outcome. -/
def verifyErrOf : Except TokenValidationError JValue → Option TokenValidationError
  | .error e => some e
  | .ok _ => none

theorem verifyErrOf_eq_some {x : Except TokenValidationError JValue}
    {e : TokenValidationError} (h : verifyErrOf x = some e) : x = .error e := by
  cases x with
  | error e2 => simp [verifyErrOf] at h; simp [h]
  | ok v => simp [verifyErrOf] at h

/-- A fixed oracle assignment for concrete test requests whose outcome
must not depend on the executors. -/
def idleOracles : ExecOracles :=
  { search := .runs (.otherError "unused"),
    create := .runs (.otherError "unused"),
    get := .runs (.otherError "unused"),
    listRecent := .runs (.otherError "unused"),
    delete := .runs (.otherError "unused") }

/-! ## Well-formedness of every route response (data for claim C9) -/

/-- Every branch of the route sends `jsonrpc := "2.0"`, exactly one of
`result`/`error`, and the normalized request id. -/
def respWellFormed (rid : JValue) (r : HttpResponse) : Prop :=
  r.body.jsonrpc = "2.0" ∧ r.body.result.isSome = !r.body.error.isSome ∧
    r.body.id = normalizeId rid

theorem createSuccessResponse_wf (rid : JValue) (res : RpcResultPayload) (status : Nat) :
    respWellFormed rid { status := status, body := createSuccessResponse rid res } := by
  simp [respWellFormed, createSuccessResponse]

theorem createErrorResponse_wf (rid : JValue) (code : Int) (message : String)
    (data : Option JValue) (status : Nat) :
    respWellFormed rid { status := status, body := createErrorResponse rid code message data } := by
  simp [respWellFormed, createErrorResponse]

theorem handleToolsList_wf (user : Option UserContext) (rid : JValue) :
    respWellFormed rid (handleToolsList user rid).1 := by
  unfold handleToolsList
  cases user with
  | none => exact createErrorResponse_wf ..
  | some u =>
      by_cases h : TOOLS_READ ∈ u.scopes <;>
        simp [h, createSuccessResponse_wf, createErrorResponse_wf]

theorem handleSearchKuraNotes_wf (ah : Option String) (rid toolArgs : JValue)
    (exec : ExecBehavior KuraSearchResponse) :
    respWellFormed rid (handleSearchKuraNotes ah rid toolArgs exec).1 := by
  unfold handleSearchKuraNotes
  repeat' split
  all_goals
    first
      | exact createErrorResponse_wf ..
      | exact createSuccessResponse_wf ..

theorem handleCreateNote_wf (ah : Option String) (rid toolArgs : JValue)
    (exec : ExecBehavior KuraCreateNoteResponse) :
    respWellFormed rid (handleCreateNote ah rid toolArgs exec).1 := by
  unfold handleCreateNote
  repeat' split
  all_goals
    first
      | exact createErrorResponse_wf ..
      | exact createSuccessResponse_wf ..

theorem handleGetNote_wf (ah : Option String) (rid toolArgs : JValue)
    (exec : ExecBehavior KuraNoteContent) :
    respWellFormed rid (handleGetNote ah rid toolArgs exec).1 := by
  unfold handleGetNote
  repeat' split
  all_goals
    first
      | exact createErrorResponse_wf ..
      | exact createSuccessResponse_wf ..

theorem handleListRecentNotes_wf (ah : Option String) (rid : JValue)
    (exec : ExecBehavior KuraRecentNotesResponse) :
    respWellFormed rid (handleListRecentNotes ah rid exec).1 := by
  unfold handleListRecentNotes
  repeat' split
  all_goals
    first
      | exact createErrorResponse_wf ..
      | exact createSuccessResponse_wf ..

theorem handleDeleteNote_wf (ah : Option String) (rid toolArgs : JValue)
    (exec : ExecBehavior Unit) :
    respWellFormed rid (handleDeleteNote ah rid toolArgs exec).1 := by
  unfold handleDeleteNote
  repeat' split
  all_goals
    first
      | exact createErrorResponse_wf ..
      | exact createSuccessResponse_wf ..

theorem handleToolsCall_wf (user : Option UserContext) (ah : Option String)
    (rid params : JValue) (oracles : ExecOracles) :
    respWellFormed rid (handleToolsCall user ah rid params oracles).1 := by
  unfold handleToolsCall
  dsimp only
  repeat' split
  all_goals
    first
      | exact createErrorResponse_wf ..
      | exact createSuccessResponse_wf ..
      | apply handleSearchKuraNotes_wf
      | apply handleCreateNote_wf
      | apply handleGetNote_wf
      | apply handleListRecentNotes_wf
      | apply handleDeleteNote_wf

theorem mcpPostHandler_wf_of_read (user : Option UserContext) (ah : Option String)
    (body : JValue) (oracles : ExecOracles) (v : JValue)
    (h : jsGet body "jsonrpc" = some v) :
    respWellFormed (jsGetD body "id") (mcpPostHandler user ah body oracles).1 := by
  unfold mcpPostHandler
  rw [h]
  dsimp only
  repeat' split
  all_goals
    first
      | exact createErrorResponse_wf ..
      | apply handleToolsList_wf
      | apply handleToolsCall_wf

/-- Claim C9: every JSON-RPC response of the `POST /mcp` handler — on every
success path, every error path, and the unhandled-exception 500 path —
has `jsonrpc = "2.0"`, exactly one of `result`/`error` set, and the
request id with an absent id normalized to `null`. -/
theorem claim9_response_well_formed (user : Option UserContext) (ah : Option String)
    (body : JValue) (oracles : ExecOracles) :
    (mcpPostHandler user ah body oracles).1.body.jsonrpc = "2.0" ∧
    (mcpPostHandler user ah body oracles).1.body.result.isSome =
      !(mcpPostHandler user ah body oracles).1.body.error.isSome ∧
    (mcpPostHandler user ah body oracles).1.body.id = requestIdOf body := by
  cases body with
  | jUndefined => exact ⟨rfl, rfl, rfl⟩
  | jNull => exact ⟨rfl, rfl, rfl⟩
  | jBool b => exact mcpPostHandler_wf_of_read user ah _ oracles _ rfl
  | jNum q => exact mcpPostHandler_wf_of_read user ah _ oracles _ rfl
  | jStr s => exact mcpPostHandler_wf_of_read user ah _ oracles _ rfl
  | jArr elems => exact mcpPostHandler_wf_of_read user ah _ oracles _ rfl
  | jObj fields => exact mcpPostHandler_wf_of_read user ah _ oracles _ rfl

/-- Claim C8: an authenticated `tools/list` with the `mcp:tools:read` scope
returns HTTP 200 with the complete static registry, verbatim and
unfiltered: the whole response (and trace) is a constant independent of
the caller's other scopes, the auth header and the executor oracles, so
repeated calls return the identical list. -/
theorem claim8_tools_list_static (u : UserContext) (ah : Option String) (rid : JValue)
    (oracles : ExecOracles) (hscope : TOOLS_READ ∈ u.scopes) :
    mcpPostHandler (some u) ah (toolsListBody rid) oracles =
      ({ status := 200, body := createSuccessResponse rid (.toolsList MCP_TOOLS) },
       [TraceEvent.scopeCheck TOOLS_READ]) := by
  unfold mcpPostHandler toolsListBody
  simp [jsGet, jsGetD, lookupField, isJsonRpc2, jsTruthy, jsTypeof, jsAsString,
    handleToolsList, hscope]

/-- Claim C5: a request whose body object has a `jsonrpc` field other than the
literal `"2.0"`, or a missing or non-string `method` field, is answered
with HTTP 400 and the invalid-request code `-32600`, before any scope
check, tool lookup or executor runs (the trace is empty), for every
user context and every oracle. -/
theorem claim5_envelope_validation_first (user : Option UserContext) (ah : Option String)
    (fields : List (String × JValue)) (oracles : ExecOracles)
    (hbad : isJsonRpc2 (lookupField fields "jsonrpc") = false ∨
      jsTruthy (lookupField fields "method") = false ∨
      jsTypeof (lookupField fields "method") ≠ "string") :
    (mcpPostHandler user ah (.jObj fields) oracles).1.status = 400 ∧
    (mcpPostHandler user ah (.jObj fields) oracles).1.body.error.map JsonRpcErrorObj.code =
      some INVALID_REQUEST ∧
    (mcpPostHandler user ah (.jObj fields) oracles).2 = [] := by
  unfold mcpPostHandler
  by_cases hv : isJsonRpc2 (lookupField fields "jsonrpc") = true
  · have hm : jsTruthy (lookupField fields "method") = false ∨
        jsTypeof (lookupField fields "method") ≠ "string" := by
      rcases hbad with h | h
      · rw [hv] at h; cases h
      · exact h
    rcases hm with h | h <;>
      simp [jsGet, jsGetD, hv, h, createErrorResponse]
  · simp only [Bool.not_eq_true] at hv
    simp [jsGet, jsGetD, hv, createErrorResponse]

/-- Claim C6 (amended): `tools/call` with a non-empty string tool name
that is not a registered tool name returns HTTP 404 with the
method-not-found code `-32601` and a `data.available_tools` list that is
exactly the names of the static registry.  The empty string — also a
string outside the registry — is instead rejected by the tool-name
validation with HTTP 400 and code -32602 (see the counterexample). -/
theorem claim6_unknown_tool (u : UserContext) (ah : Option String) (rid args : JValue)
    (n : String) (oracles : ExecOracles)
    (hscope : TOOLS_EXECUTE ∈ u.scopes)
    (hn : n ≠ "")
    (hunknown : n ∉ MCP_TOOLS.map ToolDefinition.name) :
    (mcpPostHandler (some u) ah
        (toolsCallBody rid (.jObj [("name", .jStr n), ("arguments", args)])) oracles).1 =
      { status := 404,
        body := createErrorResponse rid METHOD_NOT_FOUND ("Unknown tool: " ++ n)
          (some availableToolsData) } ∧
    availableToolsData =
      .jObj [("available_tools", .jArr ((MCP_TOOLS.map ToolDefinition.name).map JValue.jStr))] ∧
    MCP_TOOLS.map ToolDefinition.name =
      ["search_kura_notes", "create_note", "get_note", "list_recent_notes", "delete_note"] := by
  refine ⟨?_, rfl, rfl⟩
  simp [MCP_TOOLS, SEARCH_NOTES_TOOL, CREATE_NOTE_TOOL, GET_NOTE_TOOL,
    LIST_RECENT_NOTES_TOOL, DELETE_NOTE_TOOL] at hunknown
  obtain ⟨h1, h2, h3, h4, h5⟩ := hunknown
  unfold mcpPostHandler toolsCallBody handleToolsCall
  simp [jsGet, jsGetD, lookupField, isJsonRpc2, jsTruthy, jsTypeof, jsAsString,
    hscope, hn, h1, h2, h3, h4, h5]

/-! ## Claim C1: insufficient scope -/

/-- A decoded token payload whose scope string holds only
`mcp:tools:execute`. -/
def execOnlyJwt : JwtVerifyOutcome :=
  .ok (.jObj [("sub", .jStr "user-1"), ("client_id", .jStr "client-1"),
              ("scope", .jStr "mcp:tools:execute")])

/-- Claim C1 counterexample: an authenticated `tools/list` request whose
token lacks `mcp:tools:read` is answered 403, but the body is a JSON-RPC
error object (`jsonrpc:"2.0"`, `error.code = -32603`), not a body
outside the JSON-RPC envelope as the claim states. -/
theorem claim1_insufficient_scope_counterexample :
    (mcpEndpoint "https://mcp.example.com" (some "Bearer tok1") execOnlyJwt
        (toolsListBody (.jNum 1)) idleOracles).httpStatus = 403 ∧
    (mcpEndpoint "https://mcp.example.com" (some "Bearer tok1") execOnlyJwt
        (toolsListBody (.jNum 1)) idleOracles).rpcJsonrpc = some "2.0" ∧
    (mcpEndpoint "https://mcp.example.com" (some "Bearer tok1") execOnlyJwt
        (toolsListBody (.jNum 1)) idleOracles).rpcErrCode = some (-32603) ∧
    (mcpEndpoint "https://mcp.example.com" (some "Bearer tok1") execOnlyJwt
        (toolsListBody (.jNum 1)) idleOracles).rpcErrMessage =
      some "Insufficient scope. Required: mcp:tools:read" ∧
    (mcpEndpoint "https://mcp.example.com" (some "Bearer tok1") execOnlyJwt
        (toolsListBody (.jNum 1)) idleOracles).rpcErrDataStr "required_scope" =
      some "mcp:tools:read" ∧
    (mcpEndpoint "https://mcp.example.com" (some "Bearer tok1") execOnlyJwt
        (toolsListBody (.jNum 1)) idleOracles).rpcHasResult = false := by
  refine ⟨?_, ?_, ?_, ?_, ?_, ?_⟩ <;> decide

/-- Claim C1 (amended): a request whose token lacks the scope required
by the invoked method is answered HTTP 403 with a JSON-RPC error object
carrying the internal-error code `-32603`, whose message and
`data.required_scope` name the method's required scope — which the
branch condition guarantees is missing from the token, so a held scope
is never named. -/
theorem claim1_insufficient_scope_amended (u : UserContext) (ah : Option String)
    (rid pv : JValue) (oracles : ExecOracles) :
    (TOOLS_READ ∉ u.scopes →
      mcpPostHandler (some u) ah (toolsListBody rid) oracles =
        ({ status := 403,
           body := createErrorResponse rid INTERNAL_ERROR
             "Insufficient scope. Required: mcp:tools:read"
             (some (.jObj [("required_scope", .jStr TOOLS_READ)])) },
         [TraceEvent.scopeCheck TOOLS_READ])) ∧
    (TOOLS_EXECUTE ∉ u.scopes →
      mcpPostHandler (some u) ah (toolsCallBody rid pv) oracles =
        ({ status := 403,
           body := createErrorResponse rid INTERNAL_ERROR
             "Insufficient scope. Required: mcp:tools:execute"
             (some (.jObj [("required_scope", .jStr TOOLS_EXECUTE)])) },
         [TraceEvent.scopeCheck TOOLS_EXECUTE])) := by
  constructor
  · intro h
    unfold mcpPostHandler toolsListBody handleToolsList
    simp [jsGet, jsGetD, lookupField, isJsonRpc2, jsTruthy, jsTypeof, jsAsString, h]
  · intro h
    unfold mcpPostHandler toolsCallBody handleToolsCall
    simp [jsGet, jsGetD, lookupField, isJsonRpc2, jsTruthy, jsTypeof, jsAsString, h]

/-- Claim C1 witness: the amended statement at a concrete request. -/
theorem claim1_witness :
    ("mcp:tools:read" ∉ (["mcp:tools:execute"] : List String)) ∧
    mcpPostHandler (some { userId := "u1", clientId := "c1", scopes := ["mcp:tools:execute"] })
        (some "Bearer tok1") (toolsListBody (.jNum 7)) idleOracles =
      ({ status := 403,
         body := createErrorResponse (.jNum 7) INTERNAL_ERROR
           "Insufficient scope. Required: mcp:tools:read"
           (some (.jObj [("required_scope", .jStr TOOLS_READ)])) },
       [TraceEvent.scopeCheck TOOLS_READ]) :=
  ⟨by decide,
   (claim1_insufficient_scope_amended
     { userId := "u1", clientId := "c1", scopes := ["mcp:tools:execute"] }
     (some "Bearer tok1") (.jNum 7) .jNull idleOracles).1 (by decide)⟩

/-! ## Claim C2: distinct verification failure kinds and the 401 response -/

/-- Claim C2: signature, expiry, issuer and audience failures of
`verifyToken` produce four pairwise-distinct tagged codes; a payload
missing `sub`, `client_id` or `scope` produces a further code distinct
from the signature and expiry codes; and every verification failure
makes `authMiddleware` answer 401 with a `WWW-Authenticate` header
carrying that code and message. -/
theorem claim2_auth_error_kinds :
    (∀ msg, verifyToken (.err "TokenExpiredError" msg) =
        .error { message := "Token has expired", code := .token_expired }) ∧
    (verifyErrOf (verifyToken (.err "JsonWebTokenError" "invalid signature")) =
        some { message := "Invalid token signature", code := .invalid_signature }) ∧
    (verifyErrOf (verifyToken (.err "JsonWebTokenError" "invalid issuer")) =
        some { message := "Invalid token issuer", code := .invalid_issuer }) ∧
    (verifyErrOf (verifyToken (.err "JsonWebTokenError" "invalid audience")) =
        some { message := "Invalid token audience", code := .invalid_audience }) ∧
    (List.Pairwise (fun a b => a ≠ b)
      [AuthErrorCode.invalid_signature, .token_expired, .invalid_issuer, .invalid_audience]) ∧
    (∀ decoded, jsTruthy decoded = true → jsTypeof decoded = "object" →
        (jsTruthy (jsGetD decoded "sub") = false ∨
         jsTruthy (jsGetD decoded "client_id") = false ∨
         jsTruthy (jsGetD decoded "scope") = false) →
        verifyToken (.ok decoded) =
          .error { message := "Token missing required claims (sub, client_id, scope)",
                   code := .invalid_token }) ∧
    (AuthErrorCode.invalid_token ≠ .invalid_signature ∧
     AuthErrorCode.invalid_token ≠ .token_expired) ∧
    (∀ baseUrl h jwt e,
        (h == "") = false → strStartsWith h "Bearer " = true →
        (strDrop h 7 == "") = false →
        verifyToken jwt = .error e →
        authMiddleware baseUrl (some h) jwt =
          .denied { status := 401,
                    wwwAuthenticate := some (buildWWWAuthenticateHeader baseUrl
                      (some e.code.asString) (some e.message)),
                    body := { error := e.code.asString,
                              error_description := some e.message } }) := by
  refine ⟨?_, by decide, by decide, by decide, by decide, ?_, by decide, ?_⟩
  · intro msg
    simp [verifyToken]
  · intro decoded h1 h2 h3
    unfold verifyToken
    rcases h3 with h3 | h3 | h3 <;> simp [h1, h2, h3]
  · intro baseUrl h jwt e hempty hstarts hdrop hverify
    unfold authMiddleware
    simp [hempty, hstarts, hdrop, hverify]

/-- Claim C2 witness: the middleware part of the statement at a concrete
header and a concrete signature failure. -/
theorem claim2_witness :
    (("Bearer abc" == "") = false) ∧ (strStartsWith "Bearer abc" "Bearer " = true) ∧
    ((strDrop "Bearer abc" 7 == "") = false) ∧
    (verifyErrOf (verifyToken (.err "JsonWebTokenError" "invalid signature")) =
      some { message := "Invalid token signature", code := .invalid_signature }) ∧
    authMiddleware "https://mcp.example.com" (some "Bearer abc")
        (.err "JsonWebTokenError" "invalid signature") =
      .denied { status := 401,
                wwwAuthenticate := some (buildWWWAuthenticateHeader "https://mcp.example.com"
                  (some "invalid_signature") (some "Invalid token signature")),
                body := { error := "invalid_signature",
                          error_description := some "Invalid token signature" } } := by
  obtain ⟨hexp, hsig, hiss, haud, hpw, hmiss, hdist, hmid⟩ := claim2_auth_error_kinds
  have hfull : verifyToken (.err "JsonWebTokenError" "invalid signature") =
      .error { message := "Invalid token signature", code := .invalid_signature } :=
    verifyErrOf_eq_some hsig
  exact ⟨by decide, by decide, by decide, hsig,
    hmid "https://mcp.example.com" "Bearer abc"
      (.err "JsonWebTokenError" "invalid signature")
      { message := "Invalid token signature", code := .invalid_signature }
      (by decide) (by decide) (by decide) hfull⟩

/-! ## Claim C3: unhandled exceptions -/

/-- A user context holding both scopes (concrete). -/
def userBothScopes : UserContext :=
  { userId := "user-1", clientId := "client-1",
    scopes := ["mcp:tools:read", "mcp:tools:execute"] }

/-- Oracles under which the search execution step raises. -/
def searchRaiseOracles : ExecOracles :=
  { idleOracles with search := .raises "connect ECONNREFUSED 10.0.0.5:5432" }

/-- Claim C3 counterexample: an exception escaping the search tool
handler produces HTTP 500 with code `-32603` and a generic message, but
the original exception text does appear in the response body, as
`error.data.error` — contradicting the claim that it never appears. -/
theorem claim3_exception_leak_counterexample :
    (mcpPostHandler (some userBothScopes) (some "Bearer tok1")
        (toolsCallBody (.jNum 2) (.jObj [("name", .jStr "search_kura_notes"),
          ("arguments", .jObj [("query", .jStr "docker")])])) searchRaiseOracles).1.status
      = 500 ∧
    (mcpPostHandler (some userBothScopes) (some "Bearer tok1")
        (toolsCallBody (.jNum 2) (.jObj [("name", .jStr "search_kura_notes"),
          ("arguments", .jObj [("query", .jStr "docker")])])) searchRaiseOracles).1.body.jsonrpc
      = "2.0" ∧
    (mcpPostHandler (some userBothScopes) (some "Bearer tok1")
        (toolsCallBody (.jNum 2) (.jObj [("name", .jStr "search_kura_notes"),
          ("arguments", .jObj [("query", .jStr "docker")])])) searchRaiseOracles).1.errCode
      = some (-32603) ∧
    (mcpPostHandler (some userBothScopes) (some "Bearer tok1")
        (toolsCallBody (.jNum 2) (.jObj [("name", .jStr "search_kura_notes"),
          ("arguments", .jObj [("query", .jStr "docker")])])) searchRaiseOracles).1.errMessage
      = some "Tool execution failed" ∧
    (mcpPostHandler (some userBothScopes) (some "Bearer tok1")
        (toolsCallBody (.jNum 2) (.jObj [("name", .jStr "search_kura_notes"),
          ("arguments", .jObj [("query", .jStr "docker")])])) searchRaiseOracles).1.errDataStr
        "error" = some "connect ECONNREFUSED 10.0.0.5:5432" := by
  refine ⟨?_, ?_, ?_, ?_, ?_⟩ <;> decide

/-- Claim C3 (amended): an unhandled exception is answered HTTP 500 with
the internal-error code `-32603` and a genericized `message` field; the
top-level dispatch catch carries no detail at all, but an exception
escaping any of the five tool handlers has the original exception
message attached as the error's `data.error` field, so its text does
appear in the body on those paths. -/
theorem claim3_internal_error_amended :
    (∀ user ah oracles, mcpPostHandler user ah .jNull oracles =
      ({ status := 500,
         body := createErrorResponse .jNull INTERNAL_ERROR "Internal server error" none }, [])) ∧
    (∀ ah rid toolArgs tok msg,
      jsTruthy toolArgs = true → jsTypeof toolArgs = "object" →
      jsTruthy (jsGetD toolArgs "query") = true →
      jsTypeof (jsGetD toolArgs "query") = "string" →
      validLimitArg (jsGetD toolArgs "limit") = true →
      validMinSimilarityArg (jsGetD toolArgs "min_similarity") = true →
      extractAccessToken ah = some tok →
      handleSearchKuraNotes ah rid toolArgs (.raises msg) =
        (toolExecutionFailed rid msg, [])) ∧
    (∀ ah rid toolArgs tok msg,
      jsTruthy toolArgs = true → jsTypeof toolArgs = "object" →
      jsTruthy (jsGetD toolArgs "content") = true →
      jsTypeof (jsGetD toolArgs "content") = "string" →
      extractAccessToken ah = some tok →
      handleCreateNote ah rid toolArgs (.raises msg) =
        (toolExecutionFailed rid msg, [])) ∧
    (∀ ah rid toolArgs tok msg,
      jsTruthy toolArgs = true → jsTypeof toolArgs = "object" →
      jsTruthy (jsGetD toolArgs "note_id") = true →
      jsTypeof (jsGetD toolArgs "note_id") = "string" →
      extractAccessToken ah = some tok →
      handleGetNote ah rid toolArgs (.raises msg) =
        (toolExecutionFailed rid msg, [])) ∧
    (∀ ah rid tok msg,
      extractAccessToken ah = some tok →
      handleListRecentNotes ah rid (.raises msg) =
        (toolExecutionFailed rid msg, [])) ∧
    (∀ ah rid toolArgs tok msg,
      jsTruthy toolArgs = true → jsTypeof toolArgs = "object" →
      jsTruthy (jsGetD toolArgs "note_id") = true →
      jsTypeof (jsGetD toolArgs "note_id") = "string" →
      extractAccessToken ah = some tok →
      handleDeleteNote ah rid toolArgs (.raises msg) =
        (toolExecutionFailed rid msg, [])) ∧
    (∀ rid msg, (toolExecutionFailed rid msg).status = 500 ∧
      (toolExecutionFailed rid msg).body.error =
        some { code := INTERNAL_ERROR, message := "Tool execution failed",
               data := some (.jObj [("error", .jStr msg)]) }) := by
  refine ⟨fun user ah oracles => rfl, ?_, ?_, ?_, ?_, ?_, fun rid msg => ⟨rfl, rfl⟩⟩
  · intro ah rid toolArgs tok msg h1 h2 h3 h4 h5 h6 h7
    unfold handleSearchKuraNotes
    simp [h1, h2, h3, h4, h5, h6, h7]
  · intro ah rid toolArgs tok msg h1 h2 h3 h4 h5
    unfold handleCreateNote
    simp [h1, h2, h3, h4, h5]
  · intro ah rid toolArgs tok msg h1 h2 h3 h4 h5
    unfold handleGetNote
    simp [h1, h2, h3, h4, h5]
  · intro ah rid tok msg h1
    unfold handleListRecentNotes
    simp [h1]
  · intro ah rid toolArgs tok msg h1 h2 h3 h4 h5
    unfold handleDeleteNote
    simp [h1, h2, h3, h4, h5]

/-- Claim C3 witness: the tool-handler parts of the amended statement,
each at a concrete request. -/
theorem claim3_witness :
    (jsTruthy (.jObj [("query", .jStr "docker")]) = true) ∧
    (jsTypeof (.jObj [("query", .jStr "docker")]) = "object") ∧
    (jsTruthy (jsGetD (.jObj [("query", .jStr "docker")]) "query") = true) ∧
    (jsTypeof (jsGetD (.jObj [("query", .jStr "docker")]) "query") = "string") ∧
    (validLimitArg (jsGetD (.jObj [("query", .jStr "docker")]) "limit") = true) ∧
    (validMinSimilarityArg (jsGetD (.jObj [("query", .jStr "docker")]) "min_similarity") = true) ∧
    (extractAccessToken (some "Bearer tok1") = some "tok1") ∧
    (handleSearchKuraNotes (some "Bearer tok1") (.jNum 2) (.jObj [("query", .jStr "docker")])
        (.raises "boom") = (toolExecutionFailed (.jNum 2) "boom", [])) ∧
    (handleCreateNote (some "Bearer tok1") (.jNum 21) (.jObj [("content", .jStr "note text")])
        (.raises "boom") = (toolExecutionFailed (.jNum 21) "boom", [])) ∧
    (handleGetNote (some "Bearer tok1") (.jNum 22) (.jObj [("note_id", .jStr "n-1")])
        (.raises "boom") = (toolExecutionFailed (.jNum 22) "boom", [])) ∧
    (handleListRecentNotes (some "Bearer tok1") (.jNum 23)
        (.raises "boom") = (toolExecutionFailed (.jNum 23) "boom", [])) ∧
    (handleDeleteNote (some "Bearer tok1") (.jNum 24) (.jObj [("note_id", .jStr "n-1")])
        (.raises "boom") = (toolExecutionFailed (.jNum 24) "boom", [])) := by
  obtain ⟨hTop, hSearch, hCreate, hGet, hList, hDelete, hData⟩ :=
    claim3_internal_error_amended
  exact ⟨rfl, rfl, rfl, rfl, rfl, rfl, by decide,
    hSearch (some "Bearer tok1") (.jNum 2) _ "tok1" "boom"
      rfl rfl rfl rfl rfl rfl (by decide),
    hCreate (some "Bearer tok1") (.jNum 21) _ "tok1" "boom" rfl rfl rfl rfl (by decide),
    hGet (some "Bearer tok1") (.jNum 22) _ "tok1" "boom" rfl rfl rfl rfl (by decide),
    hList (some "Bearer tok1") (.jNum 23) "tok1" "boom" (by decide),
    hDelete (some "Bearer tok1") (.jNum 24) _ "tok1" "boom" rfl rfl rfl rfl (by decide)⟩

/-! ## Reduction lemmas for the request-body literals -/

theorem mcpPostHandler_toolsCall (user : Option UserContext) (ah : Option String)
    (rid p : JValue) (oracles : ExecOracles) :
    mcpPostHandler user ah (toolsCallBody rid p) oracles =
      handleToolsCall user ah rid p oracles := rfl

theorem mcpPostHandler_toolsList (user : Option UserContext) (ah : Option String)
    (rid : JValue) (oracles : ExecOracles) :
    mcpPostHandler user ah (toolsListBody rid) oracles = handleToolsList user rid := rfl

theorem jsGetD_callParams_name (n : String) (args : JValue) :
    jsGetD (.jObj [("name", .jStr n), ("arguments", args)]) "name" = .jStr n := rfl

theorem jsGetD_callParams_args (n : String) (args : JValue) :
    jsGetD (.jObj [("name", .jStr n), ("arguments", args)]) "arguments" = args := rfl

theorem jsGetD_searchParams_name (args : JValue) :
    jsGetD (.jObj [("name", .jStr "search_kura_notes"), ("arguments", args)]) "name" =
      .jStr "search_kura_notes" := rfl

theorem jsGetD_searchParams_args (args : JValue) :
    jsGetD (.jObj [("name", .jStr "search_kura_notes"), ("arguments", args)]) "arguments" =
      args := rfl

theorem jsGetD_searchArgs_query (q : String) (lim ms : JValue) :
    jsGetD (.jObj [("query", .jStr q), ("limit", lim), ("min_similarity", ms)]) "query" =
      .jStr q := rfl

theorem jsGetD_searchArgs_limit (q : String) (lim ms : JValue) :
    jsGetD (.jObj [("query", .jStr q), ("limit", lim), ("min_similarity", ms)]) "limit" =
      lim := rfl

theorem jsGetD_searchArgs_minsim (q : String) (lim ms : JValue) :
    jsGetD (.jObj [("query", .jStr q), ("limit", lim), ("min_similarity", ms)])
      "min_similarity" = ms := rfl

/-! ## Claim C4: upstream failures become ToolResults -/

/-- Claim C4: when the upstream Kura call of any registered tool fails
with a `KuraApiError`, an authenticated, well-formed `tools/call` of
that tool is answered HTTP 200 with a JSON-RPC `result` (not an
`error`) whose payload is a `ToolResult` with `isError := true` and one
descriptive text segment; for an upstream 401 every tool's appended
hint says the access token may have expired. -/
theorem claim4_upstream_failure_tool_result :
    (∀ (u : UserContext) (ah : Option String) (tok : String) (rid toolArgs : JValue)
        (msg : String) (st : Option Nat) (oracles : ExecOracles),
      TOOLS_EXECUTE ∈ u.scopes → extractAccessToken ah = some tok →
      jsTruthy toolArgs = true → jsTypeof toolArgs = "object" →
      jsTruthy (jsGetD toolArgs "query") = true →
      jsTypeof (jsGetD toolArgs "query") = "string" →
      validLimitArg (jsGetD toolArgs "limit") = true →
      validMinSimilarityArg (jsGetD toolArgs "min_similarity") = true →
      oracles.search = .runs (.apiError msg st) →
      (mcpPostHandler (some u) ah (toolsCallBody rid (.jObj
          [("name", .jStr "search_kura_notes"), ("arguments", toolArgs)])) oracles).1 =
        { status := 200,
          body := createSuccessResponse rid (.toolResult
            { content :=
                [{ type := "text",
                   text := "❌ **Kura API Error**\n\n" ++ msg ++ "\n\n" ++
                     searchUpstreamHint st }],
              isError := true }) }) ∧
    (∀ (u : UserContext) (ah : Option String) (tok : String) (rid toolArgs : JValue)
        (msg : String) (st : Option Nat) (oracles : ExecOracles),
      TOOLS_EXECUTE ∈ u.scopes → extractAccessToken ah = some tok →
      jsTruthy toolArgs = true → jsTypeof toolArgs = "object" →
      jsTruthy (jsGetD toolArgs "content") = true →
      jsTypeof (jsGetD toolArgs "content") = "string" →
      oracles.create = .runs (.apiError msg st) →
      (mcpPostHandler (some u) ah (toolsCallBody rid (.jObj
          [("name", .jStr "create_note"), ("arguments", toolArgs)])) oracles).1 =
        { status := 200,
          body := createSuccessResponse rid (.toolResult
            { content :=
                [{ type := "text",
                   text := "❌ **Failed to Create Note**\n\n" ++ msg ++ "\n\n" ++
                     createUpstreamHint st }],
              isError := true }) }) ∧
    (∀ (u : UserContext) (ah : Option String) (tok : String) (rid toolArgs : JValue)
        (msg : String) (st : Option Nat) (oracles : ExecOracles),
      TOOLS_EXECUTE ∈ u.scopes → extractAccessToken ah = some tok →
      jsTruthy toolArgs = true → jsTypeof toolArgs = "object" →
      jsTruthy (jsGetD toolArgs "note_id") = true →
      jsTypeof (jsGetD toolArgs "note_id") = "string" →
      oracles.get = .runs (.apiError msg st) →
      (mcpPostHandler (some u) ah (toolsCallBody rid (.jObj
          [("name", .jStr "get_note"), ("arguments", toolArgs)])) oracles).1 =
        { status := 200,
          body := createSuccessResponse rid (.toolResult
            { content :=
                [{ type := "text",
                   text := "❌ **Failed to Retrieve Note**\n\n" ++ msg ++ "\n\n" ++
                     getUpstreamHint st }],
              isError := true }) }) ∧
    (∀ (u : UserContext) (ah : Option String) (tok : String) (rid toolArgs : JValue)
        (msg : String) (st : Option Nat) (oracles : ExecOracles),
      TOOLS_EXECUTE ∈ u.scopes → extractAccessToken ah = some tok →
      oracles.listRecent = .runs (.apiError msg st) →
      (mcpPostHandler (some u) ah (toolsCallBody rid (.jObj
          [("name", .jStr "list_recent_notes"), ("arguments", toolArgs)])) oracles).1 =
        { status := 200,
          body := createSuccessResponse rid (.toolResult
            { content :=
                [{ type := "text",
                   text := "❌ **Failed to List Recent Notes**\n\n" ++ msg ++ "\n\n" ++
                     listUpstreamHint st }],
              isError := true }) }) ∧
    (∀ (u : UserContext) (ah : Option String) (tok : String) (rid toolArgs : JValue)
        (msg : String) (st : Option Nat) (oracles : ExecOracles),
      TOOLS_EXECUTE ∈ u.scopes → extractAccessToken ah = some tok →
      jsTruthy toolArgs = true → jsTypeof toolArgs = "object" →
      jsTruthy (jsGetD toolArgs "note_id") = true →
      jsTypeof (jsGetD toolArgs "note_id") = "string" →
      oracles.delete = .runs (.apiError msg st) →
      (mcpPostHandler (some u) ah (toolsCallBody rid (.jObj
          [("name", .jStr "delete_note"), ("arguments", toolArgs)])) oracles).1 =
        { status := 200,
          body := createSuccessResponse rid (.toolResult
            { content :=
                [{ type := "text",
                   text := "❌ **Failed to Delete Note**\n\n" ++ msg ++ "\n\n" ++
                     deleteUpstreamHint st }],
              isError := true }) }) ∧
    (∀ st : Option Nat, st = some 401 →
      searchUpstreamHint st = "Your access token may have expired. Please re-authenticate." ∧
      createUpstreamHint st = "Your access token may have expired. Please re-authenticate." ∧
      getUpstreamHint st = "Your access token may have expired. Please re-authenticate." ∧
      listUpstreamHint st = "Your access token may have expired. Please re-authenticate." ∧
      deleteUpstreamHint st = "Your access token may have expired. Please re-authenticate.") := by
  refine ⟨?_, ?_, ?_, ?_, ?_, ?_⟩
  · intro u ah tok rid toolArgs msg st oracles hscope htok hat hao h1 h2 h3 h4 hexec
    rw [mcpPostHandler_toolsCall]
    unfold handleToolsCall handleSearchKuraNotes
    simp only [jsGetD_callParams_name, jsGetD_callParams_args]
    simp only [hat, hao, h1, h2, h3, h4, htok, hexec]
    simp [jsTruthy, jsTypeof, jsAsString, executeSearchNotes, hscope]
  · intro u ah tok rid toolArgs msg st oracles hscope htok hat hao h1 h2 hexec
    rw [mcpPostHandler_toolsCall]
    unfold handleToolsCall handleCreateNote
    simp only [jsGetD_callParams_name, jsGetD_callParams_args]
    simp only [hat, hao, h1, h2, htok, hexec]
    simp [jsTruthy, jsTypeof, jsAsString, executeCreateNote, hscope]
  · intro u ah tok rid toolArgs msg st oracles hscope htok hat hao h1 h2 hexec
    rw [mcpPostHandler_toolsCall]
    unfold handleToolsCall handleGetNote
    simp only [jsGetD_callParams_name, jsGetD_callParams_args]
    simp only [hat, hao, h1, h2, htok, hexec]
    simp [jsTruthy, jsTypeof, jsAsString, executeGetNote, hscope]
  · intro u ah tok rid toolArgs msg st oracles hscope htok hexec
    rw [mcpPostHandler_toolsCall]
    unfold handleToolsCall handleListRecentNotes
    simp only [jsGetD_callParams_name, jsGetD_callParams_args]
    simp only [htok, hexec]
    simp [jsTruthy, jsTypeof, jsAsString, executeListRecentNotes, hscope]
  · intro u ah tok rid toolArgs msg st oracles hscope htok hat hao h1 h2 hexec
    rw [mcpPostHandler_toolsCall]
    unfold handleToolsCall handleDeleteNote
    simp only [jsGetD_callParams_name, jsGetD_callParams_args]
    simp only [hat, hao, h1, h2, htok, hexec]
    simp [jsTruthy, jsTypeof, jsAsString, executeDeleteNote, hscope]
  · intro st h
    subst h
    exact ⟨rfl, rfl, rfl, rfl, rfl⟩

/-! ## Claim C7: invalid search arguments are rejected pre-flight -/

/-- Claim C7: a `tools/call` of `search_kura_notes` whose arguments
carry an invalid `limit` (0, 51, non-numeric, …) or an invalid
`min_similarity` (outside `[0,1]` or non-numeric) is answered HTTP 400
with the invalid-params code `-32602`, and no upstream Kura request is
issued (the trace has no upstream event), for every oracle. -/
theorem claim7_invalid_args_preflight (u : UserContext) (ah : Option String)
    (rid toolArgs : JValue) (oracles : ExecOracles)
    (hscope : TOOLS_EXECUTE ∈ u.scopes)
    (hat : jsTruthy toolArgs = true) (hao : jsTypeof toolArgs = "object")
    (hbad : validLimitArg (jsGetD toolArgs "limit") = false ∨
      validMinSimilarityArg (jsGetD toolArgs "min_similarity") = false) :
    (mcpPostHandler (some u) ah (toolsCallBody rid (.jObj
        [("name", .jStr "search_kura_notes"), ("arguments", toolArgs)])) oracles).1.status
      = 400 ∧
    (mcpPostHandler (some u) ah (toolsCallBody rid (.jObj
        [("name", .jStr "search_kura_notes"), ("arguments", toolArgs)])) oracles).1.errCode
      = some INVALID_PARAMS ∧
    (mcpPostHandler (some u) ah (toolsCallBody rid (.jObj
        [("name", .jStr "search_kura_notes"), ("arguments", toolArgs)]))
        oracles).2.filter TraceEvent.isUpstream = [] := by
  rw [mcpPostHandler_toolsCall]
  unfold handleToolsCall handleSearchKuraNotes
  simp only [jsGetD_searchParams_name, jsGetD_searchParams_args]
  simp only [hat, hao]
  by_cases hqv : (!jsTruthy (jsGetD toolArgs "query") ||
      jsTypeof (jsGetD toolArgs "query") != "string") = true
  · simp only [hqv]
    simp [jsTruthy, jsTypeof, jsAsString, hscope, TraceEvent.isUpstream,
      HttpResponse.errCode, createErrorResponse]
  · simp only [Bool.not_eq_true] at hqv
    simp only [hqv]
    rcases hbad with hb | hb
    · simp only [hb]
      simp [jsTruthy, jsTypeof, jsAsString, hscope, TraceEvent.isUpstream,
        HttpResponse.errCode, createErrorResponse]
    · by_cases hl : validLimitArg (jsGetD toolArgs "limit") = true
      · simp only [hl, hb]
        simp [jsTruthy, jsTypeof, jsAsString, hscope, TraceEvent.isUpstream,
          HttpResponse.errCode, createErrorResponse]
      · have hl2 : validLimitArg (jsGetD toolArgs "limit") = false := by
          revert hl; cases validLimitArg (jsGetD toolArgs "limit") <;> simp
        simp only [hl2]
        simp [jsTruthy, jsTypeof, jsAsString, hscope, TraceEvent.isUpstream,
          HttpResponse.errCode, createErrorResponse]

/-! ## Claim C10: min_similarity has no effect downstream -/

theorem executeSearchNotes_minsim (o : KuraCallOutcome KuraSearchResponse) (q : String)
    (lim m1 m2 : Option Rat) :
    executeSearchNotes o { query := q, limit := lim, min_similarity := m1 } =
      executeSearchNotes o { query := q, limit := lim, min_similarity := m2 } := by
  cases o <;> rfl

theorem handleSearchKuraNotes_minsim (ah : Option String) (rid : JValue) (q : String)
    (lim ms1 ms2 : JValue) (exec : ExecBehavior KuraSearchResponse)
    (h1 : validMinSimilarityArg ms1 = true) (h2 : validMinSimilarityArg ms2 = true) :
    handleSearchKuraNotes ah rid
        (.jObj [("query", .jStr q), ("limit", lim), ("min_similarity", ms1)]) exec =
      handleSearchKuraNotes ah rid
        (.jObj [("query", .jStr q), ("limit", lim), ("min_similarity", ms2)]) exec := by
  unfold handleSearchKuraNotes
  simp only [jsGetD_searchArgs_query, jsGetD_searchArgs_limit, jsGetD_searchArgs_minsim,
    h1, h2, jsTruthy, jsTypeof, jsAsString, Bool.not_true, Bool.or_self, Bool.or_false,
    Bool.false_or]
  repeat' split
  all_goals rfl

/-- Claim C10: two `tools/call` invocations of `search_kura_notes`
whose arguments differ only in a valid `min_similarity` value produce
the identical response and the identical trace — in particular the
identical upstream search request — because the executor forwards only
`query` and `limit` to the Kura client. -/
theorem claim10_min_similarity_no_effect (u : UserContext) (ah : Option String)
    (rid : JValue) (q : String) (lim ms1 ms2 : JValue) (oracles : ExecOracles)
    (h1 : validMinSimilarityArg ms1 = true) (h2 : validMinSimilarityArg ms2 = true) :
    mcpPostHandler (some u) ah (toolsCallBody rid (.jObj
        [("name", .jStr "search_kura_notes"),
         ("arguments", .jObj [("query", .jStr q), ("limit", lim), ("min_similarity", ms1)])]))
      oracles =
    mcpPostHandler (some u) ah (toolsCallBody rid (.jObj
        [("name", .jStr "search_kura_notes"),
         ("arguments", .jObj [("query", .jStr q), ("limit", lim), ("min_similarity", ms2)])]))
      oracles := by
  have hh := handleSearchKuraNotes_minsim ah rid q lim ms1 ms2 oracles.search h1 h2
  rw [mcpPostHandler_toolsCall, mcpPostHandler_toolsCall]
  unfold handleToolsCall
  simp [jsGetD_searchParams_name, jsGetD_searchParams_args, jsTruthy, jsTypeof,
    jsAsString, hh]

/-! ## Witnesses for the universal claims -/

/-- Oracles under which every upstream Kura call fails with HTTP 401. -/
def upstream401Oracles : ExecOracles :=
  { search := .runs (.apiError "Unauthorized: Invalid or expired access token" (some 401)),
    create := .runs (.apiError "Unauthorized: Invalid or expired access token" (some 401)),
    get := .runs (.apiError "Unauthorized: Invalid or expired access token" (some 401)),
    listRecent := .runs (.apiError "Unauthorized: Invalid or expired access token" (some 401)),
    delete := .runs (.apiError "Unauthorized: Invalid or expired access token" (some 401)) }

/-- Claim C4 witness: the statement at concrete authenticated requests,
one per registered tool, whose upstream Kura call fails with 401. -/
theorem claim4_witness :
    (TOOLS_EXECUTE ∈ userBothScopes.scopes) ∧
    (extractAccessToken (some "Bearer tok1") = some "tok1") ∧
    ((mcpPostHandler (some userBothScopes) (some "Bearer tok1") (toolsCallBody (.jNum 3)
        (.jObj [("name", .jStr "search_kura_notes"),
                ("arguments", .jObj [("query", .jStr "docker")])])) upstream401Oracles).1 =
      { status := 200,
        body := createSuccessResponse (.jNum 3) (.toolResult
          { content :=
              [{ type := "text",
                 text := "❌ **Kura API Error**\n\n" ++
                   "Unauthorized: Invalid or expired access token" ++ "\n\n" ++
                   searchUpstreamHint (some 401) }],
            isError := true }) }) ∧
    ((mcpPostHandler (some userBothScopes) (some "Bearer tok1") (toolsCallBody (.jNum 31)
        (.jObj [("name", .jStr "create_note"),
                ("arguments", .jObj [("content", .jStr "note text")])])) upstream401Oracles).1 =
      { status := 200,
        body := createSuccessResponse (.jNum 31) (.toolResult
          { content :=
              [{ type := "text",
                 text := "❌ **Failed to Create Note**\n\n" ++
                   "Unauthorized: Invalid or expired access token" ++ "\n\n" ++
                   createUpstreamHint (some 401) }],
            isError := true }) }) ∧
    ((mcpPostHandler (some userBothScopes) (some "Bearer tok1") (toolsCallBody (.jNum 32)
        (.jObj [("name", .jStr "get_note"),
                ("arguments", .jObj [("note_id", .jStr "n-1")])])) upstream401Oracles).1 =
      { status := 200,
        body := createSuccessResponse (.jNum 32) (.toolResult
          { content :=
              [{ type := "text",
                 text := "❌ **Failed to Retrieve Note**\n\n" ++
                   "Unauthorized: Invalid or expired access token" ++ "\n\n" ++
                   getUpstreamHint (some 401) }],
            isError := true }) }) ∧
    ((mcpPostHandler (some userBothScopes) (some "Bearer tok1") (toolsCallBody (.jNum 33)
        (.jObj [("name", .jStr "list_recent_notes"),
                ("arguments", .jObj [])])) upstream401Oracles).1 =
      { status := 200,
        body := createSuccessResponse (.jNum 33) (.toolResult
          { content :=
              [{ type := "text",
                 text := "❌ **Failed to List Recent Notes**\n\n" ++
                   "Unauthorized: Invalid or expired access token" ++ "\n\n" ++
                   listUpstreamHint (some 401) }],
            isError := true }) }) ∧
    ((mcpPostHandler (some userBothScopes) (some "Bearer tok1") (toolsCallBody (.jNum 34)
        (.jObj [("name", .jStr "delete_note"),
                ("arguments", .jObj [("note_id", .jStr "n-1")])])) upstream401Oracles).1 =
      { status := 200,
        body := createSuccessResponse (.jNum 34) (.toolResult
          { content :=
              [{ type := "text",
                 text := "❌ **Failed to Delete Note**\n\n" ++
                   "Unauthorized: Invalid or expired access token" ++ "\n\n" ++
                   deleteUpstreamHint (some 401) }],
            isError := true }) }) ∧
    (searchUpstreamHint (some 401) =
      "Your access token may have expired. Please re-authenticate.") := by
  obtain ⟨hS, hC, hG, hL, hD, hHint⟩ := claim4_upstream_failure_tool_result
  exact ⟨by decide, by decide,
    hS userBothScopes (some "Bearer tok1") "tok1" (.jNum 3)
      (.jObj [("query", .jStr "docker")])
      "Unauthorized: Invalid or expired access token" (some 401) upstream401Oracles
      (by decide) (by decide) rfl rfl rfl rfl rfl rfl rfl,
    hC userBothScopes (some "Bearer tok1") "tok1" (.jNum 31)
      (.jObj [("content", .jStr "note text")])
      "Unauthorized: Invalid or expired access token" (some 401) upstream401Oracles
      (by decide) (by decide) rfl rfl rfl rfl rfl,
    hG userBothScopes (some "Bearer tok1") "tok1" (.jNum 32)
      (.jObj [("note_id", .jStr "n-1")])
      "Unauthorized: Invalid or expired access token" (some 401) upstream401Oracles
      (by decide) (by decide) rfl rfl rfl rfl rfl,
    hL userBothScopes (some "Bearer tok1") "tok1" (.jNum 33) (.jObj [])
      "Unauthorized: Invalid or expired access token" (some 401) upstream401Oracles
      (by decide) (by decide) rfl,
    hD userBothScopes (some "Bearer tok1") "tok1" (.jNum 34)
      (.jObj [("note_id", .jStr "n-1")])
      "Unauthorized: Invalid or expired access token" (some 401) upstream401Oracles
      (by decide) (by decide) rfl rfl rfl rfl rfl,
    (hHint (some 401) rfl).1⟩

/-- Claim C5 witness: the statement at a request whose body misses the
`jsonrpc` field, sent by a caller holding every scope. -/
theorem claim5_witness :
    (isJsonRpc2 (lookupField [("method", JValue.jStr "tools/list")] "jsonrpc") = false) ∧
    ((mcpPostHandler (some userBothScopes) (some "Bearer tok1")
        (.jObj [("method", .jStr "tools/list")]) idleOracles).1.status = 400 ∧
     (mcpPostHandler (some userBothScopes) (some "Bearer tok1")
        (.jObj [("method", .jStr "tools/list")]) idleOracles).1.body.error.map
          JsonRpcErrorObj.code = some INVALID_REQUEST ∧
     (mcpPostHandler (some userBothScopes) (some "Bearer tok1")
        (.jObj [("method", .jStr "tools/list")]) idleOracles).2 = []) :=
  ⟨rfl, claim5_envelope_validation_first (some userBothScopes) (some "Bearer tok1")
      [("method", .jStr "tools/list")] idleOracles (Or.inl rfl)⟩

/-- Claim C6 counterexample: `params.name = ""` is a string that is not
among the registered tool names, yet the response is HTTP 400 with the
invalid-params code `-32602` and message "Missing or invalid tool name"
(the `!name` check treats the empty string as missing), not the claimed
HTTP 404 with the method-not-found code and `available_tools` data. -/
theorem claim6_empty_name_counterexample :
    ("" ∉ MCP_TOOLS.map ToolDefinition.name) ∧
    (mcpPostHandler (some userBothScopes) (some "Bearer tok1")
        (toolsCallBody (.jNum 9) (.jObj [("name", .jStr ""), ("arguments", .jObj [])]))
        idleOracles).1.status = 400 ∧
    (mcpPostHandler (some userBothScopes) (some "Bearer tok1")
        (toolsCallBody (.jNum 9) (.jObj [("name", .jStr ""), ("arguments", .jObj [])]))
        idleOracles).1.errCode = some INVALID_PARAMS ∧
    (mcpPostHandler (some userBothScopes) (some "Bearer tok1")
        (toolsCallBody (.jNum 9) (.jObj [("name", .jStr ""), ("arguments", .jObj [])]))
        idleOracles).1.errMessage = some "Missing or invalid tool name" := by
  refine ⟨by decide, ?_, ?_, ?_⟩ <;> decide

/-- Claim C6 witness: the amended statement at a concrete unknown
non-empty tool name. -/
theorem claim6_witness :
    ("summarize_notes" ∉ MCP_TOOLS.map ToolDefinition.name) ∧
    ("summarize_notes" ≠ "") ∧ (TOOLS_EXECUTE ∈ userBothScopes.scopes) ∧
    ((mcpPostHandler (some userBothScopes) (some "Bearer tok1")
        (toolsCallBody (.jNum 4) (.jObj [("name", .jStr "summarize_notes"),
          ("arguments", .jObj [])])) idleOracles).1 =
      { status := 404,
        body := createErrorResponse (.jNum 4) METHOD_NOT_FOUND
          "Unknown tool: summarize_notes" (some availableToolsData) } ∧
     availableToolsData =
       .jObj [("available_tools", .jArr ((MCP_TOOLS.map ToolDefinition.name).map JValue.jStr))] ∧
     MCP_TOOLS.map ToolDefinition.name =
       ["search_kura_notes", "create_note", "get_note", "list_recent_notes", "delete_note"]) :=
  ⟨by decide, by decide, by decide,
   claim6_unknown_tool userBothScopes (some "Bearer tok1") (.jNum 4) (.jObj [])
     "summarize_notes" idleOracles (by decide) (by decide) (by decide)⟩

/-- Claim C7 witness: the statement at a request with `limit := 0`. -/
theorem claim7_witness :
    (TOOLS_EXECUTE ∈ userBothScopes.scopes) ∧
    (validLimitArg (jsGetD (.jObj [("query", .jStr "docker"), ("limit", .jNum 0)]) "limit")
      = false) ∧
    ((mcpPostHandler (some userBothScopes) (some "Bearer tok1") (toolsCallBody (.jNum 5)
        (.jObj [("name", .jStr "search_kura_notes"),
                ("arguments", .jObj [("query", .jStr "docker"), ("limit", .jNum 0)])]))
        idleOracles).1.status = 400 ∧
     (mcpPostHandler (some userBothScopes) (some "Bearer tok1") (toolsCallBody (.jNum 5)
        (.jObj [("name", .jStr "search_kura_notes"),
                ("arguments", .jObj [("query", .jStr "docker"), ("limit", .jNum 0)])]))
        idleOracles).1.errCode = some INVALID_PARAMS ∧
     (mcpPostHandler (some userBothScopes) (some "Bearer tok1") (toolsCallBody (.jNum 5)
        (.jObj [("name", .jStr "search_kura_notes"),
                ("arguments", .jObj [("query", .jStr "docker"), ("limit", .jNum 0)])]))
        idleOracles).2.filter TraceEvent.isUpstream = []) :=
  ⟨by decide, by decide,
   claim7_invalid_args_preflight userBothScopes (some "Bearer tok1") (.jNum 5)
     (.jObj [("query", .jStr "docker"), ("limit", .jNum 0)]) idleOracles
     (by decide) rfl rfl (Or.inl (by decide))⟩

/-- Claim C8 witness: the statement at a concrete request. -/
theorem claim8_witness :
    (TOOLS_READ ∈ userBothScopes.scopes) ∧
    mcpPostHandler (some userBothScopes) (some "Bearer tok1") (toolsListBody (.jNum 6))
        idleOracles =
      ({ status := 200, body := createSuccessResponse (.jNum 6) (.toolsList MCP_TOOLS) },
       [TraceEvent.scopeCheck TOOLS_READ]) :=
  ⟨by decide, claim8_tools_list_static userBothScopes (some "Bearer tok1") (.jNum 6)
     idleOracles (by decide)⟩

/-- Claim C10 witness: the statement at two concrete requests differing
only in `min_similarity` (0 versus 1). -/
theorem claim10_witness :
    (validMinSimilarityArg (.jNum 0) = true) ∧ (validMinSimilarityArg (.jNum 1) = true) ∧
    mcpPostHandler (some userBothScopes) (some "Bearer tok1") (toolsCallBody (.jNum 8)
        (.jObj [("name", .jStr "search_kura_notes"),
          ("arguments", .jObj [("query", .jStr "docker"), ("limit", .jNum 5),
            ("min_similarity", .jNum 0)])])) idleOracles =
      mcpPostHandler (some userBothScopes) (some "Bearer tok1") (toolsCallBody (.jNum 8)
        (.jObj [("name", .jStr "search_kura_notes"),
          ("arguments", .jObj [("query", .jStr "docker"), ("limit", .jNum 5),
            ("min_similarity", .jNum 1)])])) idleOracles :=
  ⟨by decide, by decide,
   claim10_min_similarity_no_effect userBothScopes (some "Bearer tok1") (.jNum 8) "docker"
     (.jNum 5) (.jNum 0) (.jNum 1) idleOracles (by decide) (by decide)⟩

end KOmcp